import Mathlib

/-!
Verification of the VULX scan engine against its natural-language
specification.  The Python sources under `apps/scan-engine/src` are shallowly
embedded: pure functions become Lean functions over explicit data, the queue
worker's database effects become explicit state passing (a list of stored
rows in, a list of inserted rows and status writes out), and code that can
raise is modelled with `Except` at the raise site and an explicit handler at
the `try/except` boundary.

Python strings are modelled by Lean `String`; `str.lower` / `str.upper` are
modelled for the ASCII range (every string the scanner compares against is
ASCII).  Python dicts that the code iterates in insertion order are modelled
by association lists.  Long free-text fields (descriptions, remediation
paragraphs, code examples) are not inspected by any verified property and are
omitted from the embedded records.
-/

set_option maxRecDepth 8192

namespace VULX

/-! ## ASCII string helpers (model of Python `str.lower`, `str.upper`, `in`) -/

/-- ASCII lower-casing of one character, the fragment of Python `str.lower`
exercised by the scanner (all compared literals are ASCII). -/
def lowerChar (c : Char) : Char :=
  if 'A' ≤ c ∧ c ≤ 'Z' then Char.ofNat (c.toNat + 32) else c

/-- ASCII upper-casing of one character (fragment of Python `str.upper`). -/
def upperChar (c : Char) : Char :=
  if 'a' ≤ c ∧ c ≤ 'z' then Char.ofNat (c.toNat - 32) else c

/-- Model of Python `s.lower()` on ASCII data. -/
def lowerStr (s : String) : String := String.mk (s.data.map lowerChar)

/-- Model of Python `s.upper()` on ASCII data. -/
def upperStr (s : String) : String := String.mk (s.data.map upperChar)

/-- Does `pat` occur at the head of `s`?  (Helper for substring search.) -/
def litAt : List Char → List Char → Bool
  | [], _ => true
  | _ :: _, [] => false
  | p :: ps, c :: cs => p = c && litAt ps cs

/-- Does `pat` occur anywhere in `s`?  Model of Python `pat in s`. -/
def containsChars (pat : List Char) : List Char → Bool
  | [] => litAt pat []
  | c :: cs => litAt pat (c :: cs) || containsChars pat cs

/-- Model of Python `pat in s` on strings. -/
def containsStr (s pat : String) : Bool := containsChars pat.data s.data

/-- Model of Python `s.endswith(suffix)`. -/
def endsWith (s suffix : String) : Bool := litAt suffix.data.reverse s.data.reverse

/-! ## Orchestrator finding model (`engines/orchestrator.py`, dataclass `Finding`)

Only the fields inspected by the verified properties are carried; the long
free-text fields of the dataclass (`title`, `description`, `evidence`,
`request`, `response`, `remediation`, `code_fix`, `references`,
`detected_at`) are never read by the functions below. -/

structure Finding where
  id : String := ""
  engine : String := ""
  type : String := ""
  severity : String := ""
  confidence : String := ""
  endpoint : String := ""
  method : String := ""
  parameter : Option String := none
  cwe_id : Option String := none
  cve_id : Option String := none
  owasp_category : Option String := none
  deriving Repr, DecidableEq

/-- Embedding of `ScanOrchestrator._severity_rank`:
`ranks.get(severity.upper(), 0)` with CRITICAL=5, HIGH=4, MEDIUM=3, LOW=2,
INFO=1. -/
def severityRank (severity : String) : Nat :=
  let s := upperStr severity
  if s = "CRITICAL" then 5
  else if s = "HIGH" then 4
  else if s = "MEDIUM" then 3
  else if s = "LOW" then 2
  else if s = "INFO" then 1
  else 0

/-- Risk weights of `ScanOrchestrator._calculate_risk_score`
(`weights.get(f.severity, 0)`, exact match, no case folding). -/
def severityWeight (severity : String) : Nat :=
  if severity = "CRITICAL" then 25
  else if severity = "HIGH" then 15
  else if severity = "MEDIUM" then 5
  else if severity = "LOW" then 2
  else 0

/-- Natural key used by `_deduplicate_findings`:
`(finding.type, finding.endpoint, finding.method, finding.parameter)`. -/
def dedupKey (f : Finding) : String × String × String × Option String :=
  (f.type, f.endpoint, f.method, f.parameter)

/-- The `else` arm of the loop in `_deduplicate_findings`: walk `unique`,
and at the first entry with the colliding key replace it by the new finding
when the new severity rank is strictly higher (`unique[i] = finding`),
otherwise keep the existing entry; then `break`. -/
def replaceFirstHigher : List Finding → Finding → List Finding
  | [], _ => []
  | g :: rest, f =>
    if dedupKey g = dedupKey f then
      (if severityRank f.severity > severityRank g.severity then f else g) :: rest
    else
      g :: replaceFirstHigher rest f

/-- One iteration of the loop in `_deduplicate_findings`.  The Python code
keeps a `seen` set alongside `unique`; its contents always equal the set of
keys of `unique`, so membership in `seen` is modelled by a key search over
the accumulator. -/
def dedupStep (unique : List Finding) (f : Finding) : List Finding :=
  if unique.any (fun g => decide (dedupKey g = dedupKey f)) then
    replaceFirstHigher unique f
  else
    unique ++ [f]

/-- Embedding of `ScanOrchestrator._deduplicate_findings`. -/
def deduplicateFindings (findings : List Finding) : List Finding :=
  findings.foldl dedupStep []

/-- Embedding of `ScanOrchestrator._calculate_risk_score`: 0 on the empty
list, otherwise `min(100, sum of weights)`. -/
def calculateRiskScore (findings : List Finding) : Nat :=
  if findings.isEmpty then 0
  else min 100 (findings.foldl (fun acc f => acc + severityWeight f.severity) 0)

/-! ## Specification-side views of deduplication, used to state claim C3. -/

/-- Findings of `l` sharing the key `k`. -/
def keyFindings (l : List Finding) (k : String × String × String × Option String) :
    List Finding :=
  l.filter (fun f => decide (dedupKey f = k))

/-- Greatest severity rank among the findings of `l` with key `k`. -/
def maxRankAt (l : List Finding) (k : String × String × String × Option String) : Nat :=
  ((keyFindings l k).map (fun f => severityRank f.severity)).foldl max 0

/-- First finding of `l` with key `k` attaining the greatest severity rank. -/
def firstMaxAt (l : List Finding) (k : String × String × String × Option String) :
    Option Finding :=
  (keyFindings l k).find? (fun f => decide (severityRank f.severity = maxRankAt l k))

/-! ### Lemmas about the deduplication loop -/

theorem keyFindings_append (a b : List Finding) (k : String × String × String × Option String) :
    keyFindings (a ++ b) k = keyFindings a k ++ keyFindings b k :=
  List.filter_append a b

theorem keyFindings_nil (k : String × String × String × Option String) :
    keyFindings [] k = [] := rfl

theorem keyFindings_singleton_eq (f : Finding) :
    keyFindings [f] (dedupKey f) = [f] := by
  simp [keyFindings]

theorem keyFindings_singleton_ne (f : Finding) (k : String × String × String × Option String)
    (h : k ≠ dedupKey f) : keyFindings [f] k = [] := by
  simp [keyFindings]
  exact fun hc => absurd hc.symm h

theorem replaceFirstHigher_keyFindings_ne (acc : List Finding) (f : Finding)
    (k : String × String × String × Option String) (hk : k ≠ dedupKey f) :
    keyFindings (replaceFirstHigher acc f) k = keyFindings acc k := by
  have hfk : (dedupKey f = k) = False := eq_false fun h => hk h.symm
  induction acc with
  | nil => rfl
  | cons g rest ih =>
    by_cases hg : dedupKey g = dedupKey f
    · have hgk : (dedupKey g = k) = False := eq_false fun h => hk ((hg.symm.trans h).symm)
      by_cases hrank : severityRank f.severity > severityRank g.severity
      · simp [replaceFirstHigher, hg, hrank, keyFindings, List.filter, hgk, hfk]
      · simp [replaceFirstHigher, hg, hrank, keyFindings, List.filter, hgk]
    · simp only [replaceFirstHigher, if_neg hg]
      by_cases hgk : dedupKey g = k
      · simp [keyFindings, List.filter, hgk] at ih ⊢
        exact ih
      · simp [keyFindings, List.filter, hgk] at ih ⊢
        exact ih

theorem replaceFirstHigher_keyFindings_eq (acc : List Finding) (f : Finding) :
    keyFindings (replaceFirstHigher acc f) (dedupKey f) =
      match keyFindings acc (dedupKey f) with
      | [] => []
      | g :: rest =>
          (if severityRank f.severity > severityRank g.severity then f else g) :: rest := by
  induction acc with
  | nil => rfl
  | cons g rest ih =>
    by_cases hg : dedupKey g = dedupKey f
    · by_cases hrank : severityRank f.severity > severityRank g.severity
      · simp [replaceFirstHigher, hg, hrank, keyFindings, List.filter]
      · simp [replaceFirstHigher, hg, hrank, keyFindings, List.filter]
    · simp only [replaceFirstHigher, if_neg hg]
      simp only [keyFindings, List.filter, decide_eq_true_eq] at ih ⊢
      simp [hg, ih]

theorem le_foldl_max (ns : List Nat) (a : Nat) : a ≤ ns.foldl max a := by
  induction ns generalizing a with
  | nil => exact le_refl a
  | cons n t ih => exact (le_max_left a n).trans (ih (max a n))

theorem foldl_max_le_of_mem (ns : List Nat) (a x : Nat) (hx : x ∈ ns) :
    x ≤ ns.foldl max a := by
  induction ns generalizing a with
  | nil => cases hx
  | cons n t ih =>
    rcases List.mem_cons.mp hx with h | h
    · subst h
      exact (le_max_right a x).trans (le_foldl_max t (max a x))
    · exact ih _ h

theorem foldl_max_mem (ns : List Nat) (a : Nat) :
    ns.foldl max a = a ∨ ns.foldl max a ∈ ns := by
  induction ns generalizing a with
  | nil => exact Or.inl rfl
  | cons n t ih =>
    simp only [List.foldl]
    rcases ih (max a n) with h | h
    · rcases max_choice a n with hm | hm
      · exact Or.inl (h.trans hm)
      · exact Or.inr (List.mem_cons.mpr (Or.inl (h.trans hm)))
    · exact Or.inr (List.mem_cons.mpr (Or.inr h))

theorem maxRankAt_append_single (l : List Finding) (f : Finding) :
    maxRankAt (l ++ [f]) (dedupKey f) =
      max (maxRankAt l (dedupKey f)) (severityRank f.severity) := by
  simp only [maxRankAt, keyFindings_append, keyFindings_singleton_eq, List.map_append,
    List.foldl_append, List.map, List.foldl]

/-- When every finding of `l` with key `k` fails to attain `maxRankAt l k`,
`l` has no finding with key `k` at all: the fold attains its value. -/
theorem keyFindings_eq_nil_of_firstMaxAt_eq_none (l : List Finding)
    (k : String × String × String × Option String) (h : firstMaxAt l k = none) :
    keyFindings l k = [] := by
  have hall := List.find?_eq_none.mp h
  cases hkf : keyFindings l k with
  | nil => rfl
  | cons g t =>
    exfalso
    have hmem : severityRank g.severity ∈ (keyFindings l k).map
        (fun f => severityRank f.severity) := by
      rw [hkf]; exact List.mem_cons_self _ _
    rcases foldl_max_mem ((keyFindings l k).map (fun f => severityRank f.severity)) 0 with
        h0 | hin
    · have hle := foldl_max_le_of_mem _ 0 _ hmem
      rw [h0] at hle
      have : severityRank g.severity = maxRankAt l k := by
        simp only [maxRankAt, h0]
        exact Nat.le_zero.mp hle
      exact hall g (by rw [hkf]; exact List.mem_cons_self g t) (by simp [this])
    · rcases List.mem_map.mp hin with ⟨x, hxmem, hxeq⟩
      exact hall x hxmem (by simp [maxRankAt, hxeq])

/-- Core property of `_deduplicate_findings`: for every natural key, the
output holds exactly the first input finding attaining the greatest severity
rank for that key (and no finding at all for keys absent from the input). -/
theorem dedup_keyFindings (l : List Finding)
    (k : String × String × String × Option String) :
    keyFindings (deduplicateFindings l) k = (firstMaxAt l k).toList := by
  induction l using List.reverseRecOn generalizing k with
  | nil => rfl
  | append_singleton l f ih =>
    have hD : deduplicateFindings (l ++ [f]) = dedupStep (deduplicateFindings l) f := by
      simp [deduplicateFindings, List.foldl_append]
    by_cases hk : k = dedupKey f
    · subst hk
      by_cases hany : (deduplicateFindings l).any
          (fun g => decide (dedupKey g = dedupKey f)) = true
      · -- the accumulator already holds an entry with this key
        have hne : keyFindings (deduplicateFindings l) (dedupKey f) ≠ [] := by
          rcases List.any_eq_true.mp hany with ⟨g, hgmem, hgkey⟩
          have hgin : g ∈ keyFindings (deduplicateFindings l) (dedupKey f) := by
            simp only [keyFindings, List.mem_filter]
            exact ⟨hgmem, hgkey⟩
          intro hnil
          rw [hnil] at hgin
          cases hgin
        cases hfm : firstMaxAt l (dedupKey f) with
        | none =>
          have ihk := ih (dedupKey f)
          rw [hfm] at ihk
          exact absurd ihk hne
        | some g0 =>
          have ihk := ih (dedupKey f)
          rw [hfm] at ihk
          have hg0rank : severityRank g0.severity = maxRankAt l (dedupKey f) := by
            have := List.find?_some hfm
            exact of_decide_eq_true this
          have hg0mem : g0 ∈ keyFindings l (dedupKey f) := List.mem_of_find?_eq_some hfm
          have hLHS : keyFindings (deduplicateFindings (l ++ [f])) (dedupKey f) =
              (if severityRank f.severity > severityRank g0.severity then f else g0) ::
                [] := by
            rw [hD]
            unfold dedupStep
            rw [if_pos hany, replaceFirstHigher_keyFindings_eq, ihk]
            rfl
          rw [hLHS]
          have hkfl : keyFindings (l ++ [f]) (dedupKey f) =
              keyFindings l (dedupKey f) ++ [f] := by
            rw [keyFindings_append, keyFindings_singleton_eq]
          by_cases hr : severityRank f.severity > severityRank g0.severity
          · have hmax : maxRankAt (l ++ [f]) (dedupKey f) = severityRank f.severity := by
              rw [maxRankAt_append_single, ← hg0rank]
              exact max_eq_right (le_of_lt hr)
            have hnonel : (keyFindings l (dedupKey f)).find?
                (fun x => decide (severityRank x.severity =
                  maxRankAt (l ++ [f]) (dedupKey f))) = none := by
              apply List.find?_eq_none.mpr
              intro x hx
              have hxle : severityRank x.severity ≤ maxRankAt l (dedupKey f) :=
                foldl_max_le_of_mem _ 0 _ (List.mem_map.mpr ⟨x, hx, rfl⟩)
              simp only [hmax, decide_eq_true_eq]
              intro hxeq
              rw [hxeq] at hxle
              rw [← hg0rank] at hxle
              exact absurd hxle (not_le_of_gt hr)
            have : firstMaxAt (l ++ [f]) (dedupKey f) = some f := by
              unfold firstMaxAt
              rw [hkfl, List.find?_append, hnonel]
              simp [hmax]
            rw [this, if_pos hr]
            rfl
          · have hle : severityRank f.severity ≤ severityRank g0.severity :=
              Nat.le_of_not_lt hr
            have hmax : maxRankAt (l ++ [f]) (dedupKey f) = maxRankAt l (dedupKey f) := by
              rw [maxRankAt_append_single, ← hg0rank]
              exact max_eq_left hle
            have : firstMaxAt (l ++ [f]) (dedupKey f) = some g0 := by
              unfold firstMaxAt
              rw [hkfl, List.find?_append, hmax]
              have : (keyFindings l (dedupKey f)).find?
                  (fun x => decide (severityRank x.severity = maxRankAt l (dedupKey f))) =
                  some g0 := hfm
              rw [this]
              rfl
            rw [this, if_neg hr]
            rfl
      · -- no entry with this key yet: the new finding is appended
        have hanyf : ¬ (deduplicateFindings l).any
            (fun g => decide (dedupKey g = dedupKey f)) = true := hany
        have hnilD : keyFindings (deduplicateFindings l) (dedupKey f) = [] := by
          cases hkf : keyFindings (deduplicateFindings l) (dedupKey f) with
          | nil => rfl
          | cons g t =>
            exfalso
            have hgin : g ∈ keyFindings (deduplicateFindings l) (dedupKey f) := by
              rw [hkf]; exact List.mem_cons_self g t
            have := List.mem_filter.mp hgin
            exact hanyf (List.any_eq_true.mpr ⟨g, this.1, this.2⟩)
        have hfmnone : firstMaxAt l (dedupKey f) = none := by
          have ihk := ih (dedupKey f)
          rw [hnilD] at ihk
          cases hfm : firstMaxAt l (dedupKey f) with
          | none => rfl
          | some g0 => rw [hfm] at ihk; cases ihk
        have hnill : keyFindings l (dedupKey f) = [] :=
          keyFindings_eq_nil_of_firstMaxAt_eq_none l (dedupKey f) hfmnone
        have hLHS : keyFindings (deduplicateFindings (l ++ [f])) (dedupKey f) = [f] := by
          rw [hD]
          unfold dedupStep
          rw [if_neg hanyf, keyFindings_append, hnilD, keyFindings_singleton_eq]
          rfl
        have hkfl : keyFindings (l ++ [f]) (dedupKey f) = [f] := by
          rw [keyFindings_append, hnill, keyFindings_singleton_eq]
          rfl
        have hmax : maxRankAt (l ++ [f]) (dedupKey f) = severityRank f.severity := by
          simp [maxRankAt, hkfl]
        have : firstMaxAt (l ++ [f]) (dedupKey f) = some f := by
          unfold firstMaxAt
          rw [hkfl, hmax]
          simp
        rw [hLHS, this]
        rfl
    · -- a key different from the appended finding is untouched
      have hkfl : keyFindings (l ++ [f]) k = keyFindings l k := by
        rw [keyFindings_append, keyFindings_singleton_ne f k hk, List.append_nil]
      have hmax : maxRankAt (l ++ [f]) k = maxRankAt l k := by
        simp [maxRankAt, hkfl]
      have hfm : firstMaxAt (l ++ [f]) k = firstMaxAt l k := by
        unfold firstMaxAt
        rw [hkfl, hmax]
      rw [hD, hfm, ← ih k]
      unfold dedupStep
      by_cases hany : (deduplicateFindings l).any
          (fun g => decide (dedupKey g = dedupKey f)) = true
      · rw [if_pos hany, replaceFirstHigher_keyFindings_ne _ _ _ hk]
      · rw [if_neg hany, keyFindings_append, keyFindings_singleton_ne f k hk,
          List.append_nil]

theorem dedup_rank_maximal (l : List Finding) (g : Finding)
    (hg : g ∈ deduplicateFindings l) (f : Finding) (hf : f ∈ l)
    (hkey : dedupKey f = dedupKey g) :
    severityRank f.severity ≤ severityRank g.severity := by
  have hgk : g ∈ keyFindings (deduplicateFindings l) (dedupKey g) :=
    List.mem_filter.mpr ⟨hg, by simp⟩
  rw [dedup_keyFindings] at hgk
  cases hfm : firstMaxAt l (dedupKey g) with
  | none => rw [hfm] at hgk; cases hgk
  | some g0 =>
    rw [hfm] at hgk
    have hgg0 : g = g0 := by simpa using hgk
    subst hgg0
    have hfm' := hfm
    unfold firstMaxAt at hfm'
    have hpg := List.find?_some hfm'
    have hrank : severityRank g.severity = maxRankAt l (dedupKey g) := by
      simpa using hpg
    have hfk : f ∈ keyFindings l (dedupKey g) :=
      List.mem_filter.mpr ⟨hf, by simp [hkey]⟩
    have hle : severityRank f.severity ≤ maxRankAt l (dedupKey g) :=
      foldl_max_le_of_mem _ 0 _ (List.mem_map.mpr ⟨f, hfk, rfl⟩)
    rw [← hrank] at hle
    exact hle

theorem dedup_exactly_one (l : List Finding) (f : Finding) (hf : f ∈ l) :
    (keyFindings (deduplicateFindings l) (dedupKey f)).length = 1 := by
  rw [dedup_keyFindings]
  cases hfm : firstMaxAt l (dedupKey f) with
  | some g => rfl
  | none =>
    exfalso
    have hnil := keyFindings_eq_nil_of_firstMaxAt_eq_none l (dedupKey f) hfm
    have hfk : f ∈ keyFindings l (dedupKey f) :=
      List.mem_filter.mpr ⟨hf, by simp⟩
    rw [hnil] at hfk
    cases hfk

theorem foldl_weight_eq_sum (l : List Finding) (n : Nat) :
    l.foldl (fun acc f => acc + severityWeight f.severity) n
      = n + (l.map (fun f => severityWeight f.severity)).sum := by
  induction l generalizing n with
  | nil => simp
  | cons f t ih =>
    simp only [List.foldl, List.map, List.sum_cons]
    rw [ih]
    omega

/-! ## Claim theorems C3 and C4 -/

/-- Concrete dedup input used by the C3 witness: the XSS collision of the
severity-dedup scenario of the spec (LOW then HIGH on the same key). -/
def xssLow : Finding :=
  { type := "Cross-Site Scripting", endpoint := "/q", method := "GET",
    parameter := some "q", severity := "LOW" }

def xssHigh : Finding :=
  { type := "Cross-Site Scripting", endpoint := "/q", method := "GET",
    parameter := some "q", severity := "HIGH" }

/-- C3: within one scan, `_deduplicate_findings` returns exactly one finding
per `(type, endpoint, method, parameter)` key, namely the first-seen input
finding of maximal severity rank for that key (CRITICAL=5, HIGH=4, MEDIUM=3,
LOW=2, INFO=1); ties keep the first-seen instance. -/
theorem deduplicate_keeps_one_max_severity_per_key :
    (∀ (l : List Finding) (k : String × String × String × Option String),
        keyFindings (deduplicateFindings l) k = (firstMaxAt l k).toList)
    ∧ (∀ (l : List Finding) (f : Finding), f ∈ l →
        (keyFindings (deduplicateFindings l) (dedupKey f)).length = 1)
    ∧ (∀ (l : List Finding) (g : Finding), g ∈ deduplicateFindings l →
        ∀ f ∈ l, dedupKey f = dedupKey g →
          severityRank f.severity ≤ severityRank g.severity)
    ∧ severityRank "CRITICAL" = 5 ∧ severityRank "HIGH" = 4
    ∧ severityRank "MEDIUM" = 3 ∧ severityRank "LOW" = 2 ∧ severityRank "INFO" = 1 :=
  ⟨dedup_keyFindings, dedup_exactly_one,
   fun l g hg f hf hk => dedup_rank_maximal l g hg f hf hk,
   by decide, by decide, by decide, by decide, by decide⟩

/-- Witness for C3 at the spec's severity-dedup scenario: two findings on one
key with severities LOW and HIGH; the dedup output holds exactly the HIGH
one. -/
theorem deduplicate_keeps_one_max_severity_per_key_witness :
    xssLow ∈ [xssLow, xssHigh]
    ∧ (keyFindings (deduplicateFindings [xssLow, xssHigh]) (dedupKey xssLow)).length = 1
    ∧ deduplicateFindings [xssLow, xssHigh] = [xssHigh] :=
  ⟨by decide,
   deduplicate_keeps_one_max_severity_per_key.2.1 [xssLow, xssHigh] xssLow (by decide),
   by decide⟩

/-- Concrete findings list of the spec's risk-score scenario. -/
def riskExample : List Finding :=
  [{ severity := "CRITICAL" }, { severity := "HIGH" }, { severity := "HIGH" },
   { severity := "MEDIUM" }, { severity := "LOW" }]

/-- C4: `_calculate_risk_score` equals `min(100, Σ weight(severity))` with
weights CRITICAL=25, HIGH=15, MEDIUM=5, LOW=2, INFO=0, always lies in
[0, 100], yields 62 on severities CRITICAL, HIGH, HIGH, MEDIUM, LOW, and 0 on
the empty list. -/
theorem risk_score_min_of_weight_sum :
    (∀ l : List Finding, calculateRiskScore l =
        min 100 ((l.map (fun f => severityWeight f.severity)).sum))
    ∧ (∀ l : List Finding, calculateRiskScore l ≤ 100)
    ∧ severityWeight "CRITICAL" = 25 ∧ severityWeight "HIGH" = 15
    ∧ severityWeight "MEDIUM" = 5 ∧ severityWeight "LOW" = 2
    ∧ severityWeight "INFO" = 0
    ∧ calculateRiskScore riskExample = 62
    ∧ calculateRiskScore [] = 0 := by
  have hform : ∀ l : List Finding, calculateRiskScore l =
      min 100 ((l.map (fun f => severityWeight f.severity)).sum) := by
    intro l
    cases l with
    | nil => rfl
    | cons f t =>
      simp only [calculateRiskScore, List.isEmpty, if_neg]
      rw [foldl_weight_eq_sum]
      simp
  refine ⟨hform, fun l => ?_, by decide, by decide, by decide, by decide, by decide,
    by decide, by decide⟩
  rw [hform l]
  exact min_le_left _ _

/-! ## Queue worker and finding reconciler (`worker.py`, `process_scan`)

The relational store is passed explicitly: the prior database content is a
list of stored finding rows (each carrying the status of its owning scan and
that scan's project/environment), and `process_scan` is modelled as a
function from the job inputs to the list of status writes it performs on the
`Scan` row and the list of `Finding` rows it inserts. -/

/-- A finding produced by the OWASP scanner, as consumed by the worker
(`finding['type']`, `finding['severity']`, ...).  Free-text fields that the
worker merely copies are carried so the inserted rows are complete. -/
structure WFinding where
  type : String := ""
  severity : String := ""
  description : String := ""
  endpoint : String := ""
  method : String := ""
  remediation : String := ""
  owasp_category : String := ""
  cwe_id : Option String := none
  evidence : Option String := none
  deriving Repr, DecidableEq

/-- A persisted `Finding` row joined with its owning scan, as seen by the
state-map query of `process_scan` (`SELECT ... FROM "Finding" f JOIN "Scan" s
ON f."scanId" = s.id`).  `createdAt` is modelled as a numeric timestamp. -/
structure StoredFinding where
  id : String := ""
  type : String := ""
  method : Option String := none
  endpoint : String := ""
  status : String := ""
  resolutionNotes : Option String := none
  assignedTo : Option String := none
  scanId : String := ""
  createdAt : Nat := 0
  scanProjectId : String := ""
  scanEnvironment : String := ""
  scanStatus : String := ""
  deriving Repr, DecidableEq

/-- Natural key `(type, method_upper, endpoint)` of a scanner finding, as the
worker computes it: `(finding['type'], finding['method'].upper(),
finding['endpoint'])`. -/
def findingKey (f : WFinding) : String × String × String :=
  (f.type, upperStr f.method, f.endpoint)

/-- Natural key of a stored row, as the state-map loop computes it:
`(r.type, r.method.upper() if r.method else '', r.endpoint)`. -/
def storedKey (r : StoredFinding) : String × String × String :=
  (r.type, (match r.method with | some m => upperStr m | none => ""), r.endpoint)

/-- The state carried per key by `previous_findings`. -/
structure PrevState where
  id : String := ""
  status : String := ""
  resolutionNotes : Option String := none
  assignedTo : Option String := none
  scanId : String := ""
  deriving Repr, DecidableEq

/-- Rows eligible for the state map of a job: findings of COMPLETED scans of
the same project and environment (the WHERE clause of the query). -/
def eligibleRows (db : List StoredFinding) (projectId environment : String) :
    List StoredFinding :=
  db.filter (fun r => decide (r.scanProjectId = projectId
    ∧ r.scanEnvironment = environment ∧ r.scanStatus = "COMPLETED"))

/-- Embedding of the `DISTINCT ON (type, method, endpoint) ... ORDER BY ...,
"createdAt" DESC` query: among the eligible rows with key `k`, the one with
the greatest `createdAt` (the first row of each key group in descending
creation order; ties keep the first candidate found). -/
def mostRecentAt (db : List StoredFinding) (projectId environment : String)
    (k : String × String × String) : Option StoredFinding :=
  ((eligibleRows db projectId environment).filter (fun r => decide (storedKey r = k))).foldl
    (fun best r =>
      match best with
      | none => some r
      | some b => if r.createdAt > b.createdAt then some r else some b)
    none

/-- The state-map entry the worker builds for key `k`. -/
def stateMapLookup (db : List StoredFinding) (projectId environment : String)
    (k : String × String × String) : Option PrevState :=
  (mostRecentAt db projectId environment k).map (fun r =>
    { id := r.id, status := r.status, resolutionNotes := r.resolutionNotes,
      assignedTo := r.assignedTo, scanId := r.scanId })

/-- A `Finding` row inserted by `process_scan` (the columns of the INSERT
statements other than the generated id and the NOW() timestamp). -/
structure FindingRow where
  scanId : String := ""
  type : String := ""
  severity : String := ""
  description : String := ""
  endpoint : String := ""
  method : String := ""
  remediation : String := ""
  owaspCategory : String := ""
  cweId : Option String := none
  evidence : Option String := none
  status : String := ""
  resolutionNotes : Option String := none
  assignedTo : Option String := none
  deriving Repr, DecidableEq

/-- Natural key of an inserted row (its method is stored as the scanner
produced it, so the key upper-cases it like the state-map loop would). -/
def rowKey (row : FindingRow) : String × String × String :=
  (row.type, upperStr row.method, row.endpoint)

/-- Python `x or 'None'` on the previous resolution notes of a regression. -/
def notesOrNone (notes : Option String) : String :=
  match notes with
  | some s => if s = "" then "None" else s
  | none => "None"

/-- The body of the per-finding loop of `process_scan`: given the state-map
entry for the finding's key, either produce the row to insert or skip the
finding (`None` models the `continue` of the FALSE_POSITIVE/ACCEPTED arm). -/
def reconcileFinding (scanId : String) (prev? : Option PrevState) (f : WFinding) :
    Option FindingRow :=
  match prev? with
  | some prev =>
    if prev.status = "FIXED" then
      some { scanId := scanId, type := f.type, severity := f.severity,
             description := f.description, endpoint := f.endpoint, method := f.method,
             remediation := f.remediation, owaspCategory := f.owasp_category,
             cweId := f.cwe_id, evidence := f.evidence, status := "OPEN",
             resolutionNotes := some
               ("REGRESSION: Previously fixed, found again in scan. Original notes: "
                 ++ notesOrNone prev.resolutionNotes),
             assignedTo := prev.assignedTo }
    else if prev.status = "FALSE_POSITIVE" ∨ prev.status = "ACCEPTED" then
      none
    else
      some { scanId := scanId, type := f.type, severity := f.severity,
             description := f.description, endpoint := f.endpoint, method := f.method,
             remediation := f.remediation, owaspCategory := f.owasp_category,
             cweId := f.cwe_id, evidence := f.evidence, status := prev.status,
             resolutionNotes := prev.resolutionNotes, assignedTo := prev.assignedTo }
  | none =>
    some { scanId := scanId, type := f.type, severity := f.severity,
           description := f.description, endpoint := f.endpoint, method := f.method,
           remediation := f.remediation, owaspCategory := f.owasp_category,
           cweId := f.cwe_id, evidence := f.evidence, status := "OPEN",
           resolutionNotes := none, assignedTo := none }

/-- State-map consultation of the loop: the map is only populated when the
scan row carries a project id (`if project_id:`). -/
def prevStateFor (projectId? : Option String) (environment : String)
    (db : List StoredFinding) (k : String × String × String) : Option PrevState :=
  match projectId? with
  | some pid => stateMapLookup db pid environment k
  | none => none

/-- All rows inserted by the reconciliation loop of `process_scan`. -/
def reconcileAll (scanId : String) (projectId? : Option String) (environment : String)
    (db : List StoredFinding) (findings : List WFinding) : List FindingRow :=
  findings.filterMap (fun f =>
    reconcileFinding scanId (prevStateFor projectId? environment db (findingKey f)) f)

/-- Observable outcome of one `process_scan` call: the successive writes to
the scan row's `status` column and the inserted finding rows. -/
structure ProcessOutcome where
  statusWrites : List String
  rows : List FindingRow
  deriving Repr, DecidableEq

/-- Embedding of `worker.process_scan`.  `parsed?` is the result of the
parse-and-scan prefix of the `try` block: `none` models any exception raised
before the inserts (`parse_openapi_spec` returning `None` and the subsequent
`raise` included), `some findings` the scanner's output.  The status column
is first set to PROCESSING (before the `try`), then exactly once to COMPLETED
at the end of the `try` or to FAILED in the `except` arm. -/
def processScan (scanId : String) (projectId? : Option String) (environment : String)
    (db : List StoredFinding) (parsed? : Option (List WFinding)) : ProcessOutcome :=
  match parsed? with
  | none => { statusWrites := ["PROCESSING", "FAILED"], rows := [] }
  | some findings =>
      { statusWrites := ["PROCESSING", "COMPLETED"],
        rows := reconcileAll scanId projectId? environment db findings }

/-- Every row `reconcileFinding` emits carries the reconciled finding's
natural key and the current scan id. -/
theorem reconcileFinding_key (scanId : String) (prev? : Option PrevState)
    (f : WFinding) (row : FindingRow)
    (h : reconcileFinding scanId prev? f = some row) :
    rowKey row = findingKey f ∧ row.scanId = scanId := by
  cases prev? with
  | none =>
    simp only [reconcileFinding] at h
    cases h
    simp [rowKey, findingKey]
  | some prev =>
    simp only [reconcileFinding] at h
    by_cases h1 : prev.status = "FIXED"
    · rw [if_pos h1] at h
      cases h
      simp [rowKey, findingKey]
    · rw [if_neg h1] at h
      by_cases h2 : prev.status = "FALSE_POSITIVE" ∨ prev.status = "ACCEPTED"
      · rw [if_pos h2] at h
        cases h
      · rw [if_neg h2] at h
        cases h
        simp [rowKey, findingKey]

/-! ## Claim theorems C1, C2, C5 -/

/-- C1: when the most recent persisted row for a natural key across the
COMPLETED scans of the project+environment is FALSE_POSITIVE or ACCEPTED,
a later scan job that rediscovers the key inserts no row for it. -/
theorem suppressed_key_never_reinserted (scanId pid environment : String)
    (db : List StoredFinding) (findings : List WFinding)
    (k : String × String × String) (p : PrevState)
    (hlookup : stateMapLookup db pid environment k = some p)
    (hsupp : p.status = "FALSE_POSITIVE" ∨ p.status = "ACCEPTED") :
    ∀ row ∈ (processScan scanId (some pid) environment db (some findings)).rows,
      rowKey row ≠ k := by
  intro row hrow
  simp only [processScan] at hrow
  rcases List.mem_filterMap.mp hrow with ⟨f, hf, hrec⟩
  by_cases hkey : findingKey f = k
  · exfalso
    rw [hkey] at hrec
    simp only [prevStateFor, hlookup] at hrec
    have hnotfixed : ¬ p.status = "FIXED" := by
      rcases hsupp with h | h <;> simp [h]
    simp only [reconcileFinding, if_neg hnotfixed, if_pos hsupp] at hrec
    cases hrec
  · intro hcontra
    have hk := (reconcileFinding_key _ _ _ _ hrec).1
    rw [hk] at hcontra
    exact hkey hcontra

/-- Stored row of the C1 witness: an XSS finding on GET /search marked
FALSE_POSITIVE in a COMPLETED scan of project P, environment PRODUCTION. -/
def c1Stored : StoredFinding :=
  { id := "f1", type := "XSS", method := some "get", endpoint := "/search",
    status := "FALSE_POSITIVE", scanId := "A", createdAt := 1,
    scanProjectId := "P", scanEnvironment := "PRODUCTION",
    scanStatus := "COMPLETED" }

/-- The same logical finding rediscovered by the later scan. -/
def c1Finding : WFinding :=
  { type := "XSS", severity := "MEDIUM", endpoint := "/search", method := "GET" }

/-- Witness for C1: the suppression scenario of the spec; the later scan
inserts no row at all for the suppressed key. -/
theorem suppressed_key_never_reinserted_witness :
    (∀ row ∈ (processScan "B" (some "P") "PRODUCTION" [c1Stored]
        (some [c1Finding])).rows, rowKey row ≠ ("XSS", "GET", "/search"))
    ∧ (processScan "B" (some "P") "PRODUCTION" [c1Stored] (some [c1Finding])).rows
        = [] :=
  ⟨suppressed_key_never_reinserted "B" "P" "PRODUCTION" [c1Stored] [c1Finding]
      ("XSS", "GET", "/search")
      { id := "f1", status := "FALSE_POSITIVE", resolutionNotes := none,
        assignedTo := none, scanId := "A" }
      (by decide) (Or.inl (by decide)),
   by decide⟩

/-- C2: a key whose most recent persisted status is FIXED and that is found
again yields a fresh row on the current scan with status OPEN, resolution
notes beginning with "REGRESSION:", and the previous assignee preserved. -/
theorem regression_reopens_with_notes (scanId pid environment : String)
    (db : List StoredFinding) (findings : List WFinding) (f : WFinding)
    (p : PrevState) (hf : f ∈ findings)
    (hlookup : stateMapLookup db pid environment (findingKey f) = some p)
    (hfixed : p.status = "FIXED") :
    ∃ row ∈ (processScan scanId (some pid) environment db (some findings)).rows,
      rowKey row = findingKey f ∧ row.scanId = scanId ∧ row.status = "OPEN"
      ∧ (∃ rest, row.resolutionNotes = some ("REGRESSION:" ++ rest))
      ∧ row.assignedTo = p.assignedTo := by
  refine ⟨{ scanId := scanId, type := f.type, severity := f.severity,
            description := f.description, endpoint := f.endpoint, method := f.method,
            remediation := f.remediation, owaspCategory := f.owasp_category,
            cweId := f.cwe_id, evidence := f.evidence, status := "OPEN",
            resolutionNotes := some
              ("REGRESSION: Previously fixed, found again in scan. Original notes: "
                ++ notesOrNone p.resolutionNotes),
            assignedTo := p.assignedTo }, ?_, ?_, ?_, ?_, ?_, ?_⟩
  · simp only [processScan]
    exact List.mem_filterMap.mpr ⟨f, hf, by
      simp only [prevStateFor, hlookup, reconcileFinding, if_pos hfixed]⟩
  · simp [rowKey, findingKey]
  · rfl
  · rfl
  · refine ⟨" Previously fixed, found again in scan. Original notes: "
      ++ notesOrNone p.resolutionNotes, ?_⟩
    rw [← String.append_assoc]
    rfl
  · rfl

/-- Stored row of the C2 witness: a SQL injection on POST /login marked
FIXED, with an assignee, in a COMPLETED scan. -/
def c2Stored : StoredFinding :=
  { id := "f2", type := "SQL_INJECTION", method := some "POST",
    endpoint := "/login", status := "FIXED", resolutionNotes := some "patched",
    assignedTo := some "alice", scanId := "A", createdAt := 3,
    scanProjectId := "P", scanEnvironment := "PRODUCTION",
    scanStatus := "COMPLETED" }

/-- The same logical finding found again by the later scan. -/
def c2Finding : WFinding :=
  { type := "SQL_INJECTION", severity := "CRITICAL", endpoint := "/login",
    method := "POST" }

/-- Witness for C2: the regression scenario of the spec, evaluated. -/
theorem regression_reopens_with_notes_witness :
    ∃ row ∈ (processScan "B" (some "P") "PRODUCTION" [c2Stored]
        (some [c2Finding])).rows,
      rowKey row = findingKey c2Finding ∧ row.scanId = "B" ∧ row.status = "OPEN"
      ∧ (∃ rest, row.resolutionNotes = some ("REGRESSION:" ++ rest))
      ∧ row.assignedTo = some "alice" :=
  regression_reopens_with_notes "B" "P" "PRODUCTION" [c2Stored] [c2Finding]
    c2Finding
    { id := "f2", status := "FIXED", resolutionNotes := some "patched",
      assignedTo := some "alice", scanId := "A" }
    (by decide) (by decide) (by decide)

/-- Position of a Scan row status along the lifecycle order of the spec. -/
def scanStatusRank (s : String) : Nat :=
  if s = "QUEUED" then 0 else if s = "PROCESSING" then 1 else 2

/-- C5: starting from the initial QUEUED status, every `process_scan` run
writes PROCESSING first and then exactly one terminal status — COMPLETED on
success, FAILED on error — with the statuses strictly ascending the lifecycle
order (no back-transitions). -/
theorem scan_status_monotone (scanId : String) (projectId? : Option String)
    (environment : String) (db : List StoredFinding)
    (parsed? : Option (List WFinding)) :
    List.Chain' (fun a b => scanStatusRank a < scanStatusRank b)
      ("QUEUED" :: (processScan scanId projectId? environment db parsed?).statusWrites)
    ∧ ("QUEUED" :: (processScan scanId projectId? environment db
        parsed?).statusWrites).countP
        (fun s => decide (s = "COMPLETED" ∨ s = "FAILED")) = 1
    ∧ ("QUEUED" :: (processScan scanId projectId? environment db
        parsed?).statusWrites).getLast? = some
        (match parsed? with | some _ => "COMPLETED" | none => "FAILED")
    ∧ (processScan scanId projectId? environment db parsed?).statusWrites.head?
        = some "PROCESSING" := by
  cases parsed? with
  | none => refine ⟨?_, ?_, ?_, ?_⟩ <;> simp [processScan, scanStatusRank]
  | some findings => refine ⟨?_, ?_, ?_, ?_⟩ <;> simp [processScan, scanStatusRank]

/-! ## OpenAPI static analyzer (`scanners/owasp_scanner.py`)

The parsed OpenAPI document is embedded as typed association lists mirroring
the dictionary shapes the scanner reads (`.get` defaults become record
defaults).  Regular-expression searches of the source are over patterns of
the shape `literal .* literal`, an end-anchored brace group, and a
version-segment pattern; each is modelled by a dedicated executable search
over character lists (`.` is modelled as any character: no scanned string
contains a newline). -/

/-- A JSON schema node as walked by `_get_all_properties`. -/
inductive SchemaObj where
  | mk (properties : List (String × SchemaObj)) (items : Option SchemaObj)
      (allOf : List SchemaObj) (oneOf : List SchemaObj) (anyOf : List SchemaObj)

/-- The empty schema dictionary (`.get('schema', {})`). -/
def SchemaObj.empty : SchemaObj := .mk [] none [] [] []

structure MediaType where
  schema : SchemaObj := SchemaObj.empty

structure RequestBody where
  content : List (String × MediaType) := []

structure ResponseObj where
  description : String := ""
  content : List (String × MediaType) := []

structure Param where
  name : String := ""

/-- One operation object.  `security := none` models an operation dictionary
without a `security` entry; `some []` models an explicitly empty
`security: []`. -/
structure Operation where
  security : Option (List (List String)) := none
  parameters : List Param := []
  requestBody : RequestBody := {}
  responses : List (String × ResponseObj) := []
  deprecated : Bool := false
  description : String := ""
  summary : String := ""

/-- A security scheme object; `inLoc` is the `in` field of the source. -/
structure SecurityScheme where
  type : String := ""
  scheme : String := ""
  inLoc : String := ""
  deriving DecidableEq

/-- The parsed OpenAPI document, restricted to the entries the scanner
reads.  A security requirement is the list of scheme names of the
requirement object. -/
structure OpenApiSpec where
  securityDefinitions? : Option (List (String × SecurityScheme)) := none
  componentsSecuritySchemes? : Option (List (String × SecurityScheme)) := none
  security : List (List String) := []
  paths : List (String × List (String × Operation)) := []
  servers : List String := []

/-- A finding emitted by the static scanner (`owasp_scanner.Finding`); the
free-text `description` and `remediation` columns are not inspected by any
verified property and are omitted. -/
structure SFinding where
  type : String := ""
  severity : String := ""
  endpoint : String := ""
  method : String := ""
  owasp_category : String := ""
  cwe_id : Option String := none
  evidence : Option String := none
  deriving Repr, DecidableEq

/-- Embedding of `_get_all_properties` with its recursion bound: the Python
recursion carries a depth that starts at 0 and stops above 5, which is the
fuel value 6 counting down.  Order follows the source: direct property keys,
then recursion into property values, `items`, `allOf`, `oneOf`, `anyOf`. -/
def getAllPropsFuel : Nat → SchemaObj → List String
  | 0, _ => []
  | n + 1, .mk props items allOf1 oneOf1 anyOf1 =>
      props.map Prod.fst
      ++ props.flatMap (fun p => getAllPropsFuel n p.2)
      ++ (match items with | some it => getAllPropsFuel n it | none => [])
      ++ allOf1.flatMap (fun sub => getAllPropsFuel n sub)
      ++ oneOf1.flatMap (fun sub => getAllPropsFuel n sub)
      ++ anyOf1.flatMap (fun sub => getAllPropsFuel n sub)

/-- `_get_all_properties(schema)` at the default depth 0. -/
def getAllProperties (s : SchemaObj) : List String := getAllPropsFuel 6 s

/-- Model of `s.startswith(pre)`. -/
def strStarts (s pre : String) : Bool := litAt pre.data s.data

/-- Search for the pattern `pre .* post` anywhere in `s` (the shape of every
`ID_PATTERNS` regex, case already folded by the caller). -/
def searchCharsStar (pre post : List Char) : List Char → Bool
  | [] => litAt pre [] && containsChars post []
  | c :: t =>
      (litAt pre (c :: t) && containsChars post ((c :: t).drop pre.length))
        || searchCharsStar pre post t

def regexSearchStar (pre post s : String) : Bool :=
  searchCharsStar pre.data post.data s.data

/-- Scanner pattern table `ID_PATTERNS`, each regex split at its `.*` and
lower-cased (the source applies them with `re.IGNORECASE`; the three
`\x7b.*id\x7d` variants differ only in the case of `id`). -/
def ID_PATTERNS : List (String × String) :=
  [("\x7b", "id\x7d"), ("\x7b", "id\x7d"), ("\x7b", "id\x7d"),
   ("\x7buser", "\x7d"), ("\x7baccount", "\x7d"), ("\x7border", "\x7d"),
   ("\x7bcustomer", "\x7d"), ("\x7bprofile", "\x7d"), ("\x7bdocument", "\x7d"),
   ("\x7bfile", "\x7d"), ("\x7brecord", "\x7d"), ("\x7bitem", "\x7d")]

def ADMIN_PATTERNS : List String :=
  ["admin", "manage", "management", "internal", "system", "config",
   "configuration", "settings", "control", "super", "root", "master",
   "privileged", "staff", "operator", "debug", "test", "dev"]

def BUSINESS_FLOW_PATTERNS : List String :=
  ["payment", "pay", "checkout", "purchase", "buy", "order", "transaction",
   "transfer", "withdraw", "deposit", "refund", "invoice", "billing",
   "subscription", "upgrade", "downgrade", "cancel", "delete", "remove",
   "approve", "reject", "verify", "confirm", "reset", "change-password",
   "change_password", "forgot-password", "forgot_password", "signup", "register"]

def SSRF_PATTERNS : List String :=
  ["url", "uri", "link", "callback", "webhook", "redirect", "return_url",
   "returnUrl", "return-url", "next", "destination", "target", "fetch",
   "proxy", "forward", "load", "image_url", "imageUrl", "image-url",
   "file_url", "fileUrl", "file-url", "resource", "source"]

def SENSITIVE_FIELDS : List String :=
  ["password", "passwd", "secret", "token", "apikey", "api_key", "api-key",
   "auth", "credential", "private", "ssn", "social_security", "credit_card",
   "card_number", "cvv", "pin", "bank_account", "routing_number",
   "access_token", "refresh_token", "bearer", "jwt", "session", "cookie"]

/-- The inline sensitive-property list of
`_has_sensitive_properties_in_schema`. -/
def MASS_ASSIGNMENT_FIELDS : List String :=
  ["role", "admin", "privilege", "permission", "level", "type",
   "status", "verified", "approved", "active", "enabled"]

def DEBUG_PATTERNS : List String :=
  ["debug", "test", "dev", "staging", "swagger", "docs", "graphql", "playground"]

def EXTERNAL_INDICATORS : List String :=
  ["external", "third-party", "3rd party", "integration",
   "webhook", "callback", "partner", "provider"]

/-- Embedding of `_get_security_definitions`: `securityDefinitions`, else
`components.securitySchemes`, else `{}`. -/
def getSecurityDefinitions (spec : OpenApiSpec) : List (String × SecurityScheme) :=
  match spec.securityDefinitions? with
  | some defs => defs
  | none =>
    match spec.componentsSecuritySchemes? with
    | some defs => defs
    | none => []

/-- Embedding of `_endpoint_has_security`: an operation-level `security`
entry (even empty) overrides the global one; emptiness means no security. -/
def endpointHasSecurity (spec : OpenApiSpec) (op : Operation) : Bool :=
  match op.security with
  | some reqs => decide (0 < reqs.length)
  | none => decide (0 < spec.security.length)

/-- First-occurrence deduplication, the key order of a Python dict built by
repeated assignment. -/
def dedupFirst (l : List String) : List String :=
  l.foldl (fun acc s => if acc.contains s then acc else acc ++ [s]) []

/-- Embedding of `_get_endpoint_security_schemes`: the scheme names of the
effective security requirements that are declared, each with its scheme
object, in dict insertion order. -/
def endpointSecuritySchemes (spec : OpenApiSpec) (op : Operation) :
    List (String × SecurityScheme) :=
  let security := match op.security with | some s => s | none => spec.security
  (dedupFirst (security.flatMap id)).filterMap (fun name =>
    ((getSecurityDefinitions spec).lookup name).map (fun sch => (name, sch)))

/-- Embedding of `_has_sensitive_properties_in_schema`. -/
def hasSensitivePropsInSchema (rb : RequestBody) : Bool :=
  rb.content.any (fun ct =>
    (getAllProperties ct.2.schema).any (fun propName =>
      MASS_ASSIGNMENT_FIELDS.any (fun sensitive =>
        containsStr (lowerStr propName) sensitive)))

/-- Embedding of `_response_may_expose_sensitive_data`. -/
def responseMayExpose (resp : ResponseObj) : Bool :=
  resp.content.any (fun ct =>
    (getAllProperties ct.2.schema).any (fun propName =>
      SENSITIVE_FIELDS.any (fun sensitive =>
        containsStr (lowerStr propName) sensitive)))

/-- Embedding of `_has_url_properties_in_schema`. -/
def hasUrlPropsInSchema (rb : RequestBody) : Bool :=
  rb.content.any (fun ct =>
    (getAllProperties ct.2.schema).any (fun propName =>
      SSRF_PATTERNS.any (fun pat => containsStr (lowerStr propName) pat)))

/-- Scan of the reversed tail after a trailing close brace: the pagination
regex matches when at least one non-brace-delimiter character precedes an
opening brace. -/
def braceScan : List Char → Bool → Bool
  | [], _ => false
  | '\x7b' :: _, seen => seen
  | '\x7d' :: _, _ => false
  | _ :: t, _ => braceScan t true

/-- Search for the end-anchored pagination regex: `s` ends with an open
brace, one or more characters none of which is a close brace, and a final
close brace. -/
def endsWithBraceParam (s : String) : Bool :=
  match s.data.reverse with
  | '\x7d' :: rest => braceScan rest false
  | _ => false

/-- At-position match of one or more digits followed by a slash (the tail of
each version regex), maximal-munch; returns the consumed characters. -/
def digitsThenSlash (s : List Char) : Option (List Char) :=
  let ds := s.takeWhile (fun c => c.isDigit)
  if ds.isEmpty then none
  else
    match s.drop ds.length with
    | '/' :: _ => some (ds ++ ['/'])
    | _ => none

def matchVersionAt (pre s : List Char) : Option (List Char) :=
  if litAt pre s then
    (digitsThenSlash (s.drop pre.length)).map (fun tail => pre ++ tail)
  else none

/-- First match (as `re.search().group()`) of the pattern `pre \d+ /`. -/
def searchVersion (pre : List Char) : List Char → Option (List Char)
  | [] => matchVersionAt pre []
  | c :: t =>
    match matchVersionAt pre (c :: t) with
    | some m => some m
    | none => searchVersion pre t

/-- The literal heads of the three `version_patterns` regexes. -/
def VERSION_PATTERN_HEADS : List (List Char) :=
  ["/v".data, "/api/v".data, "/version".data]

/-- The distinct matched version segments over all paths
(`versions_found`, a set built in iteration order). -/
def versionsFound (paths : List (String × List (String × Operation))) : List String :=
  dedupFirst (paths.flatMap (fun pi =>
    VERSION_PATTERN_HEADS.filterMap (fun pre =>
      (searchVersion pre pi.1.data).map (fun m => String.mk m))))

/-! ### The per-endpoint checks -/

/-- Embedding of `_check_bola`. -/
def checkBola (spec : OpenApiSpec) (path method : String) (op : Operation) :
    List SFinding :=
  if ID_PATTERNS.any (fun p => regexSearchStar p.1 p.2 (lowerStr path)) then
    let hasSec := endpointHasSecurity spec op
    [{ type := "BOLA",
       severity := if !hasSec then "HIGH" else "MEDIUM",
       endpoint := path, method := method,
       owasp_category := "API1:2023 - Broken Object Level Authorization",
       cwe_id := some "CWE-639",
       evidence := some ("Path parameter pattern detected: " ++ path) }]
  else []

/-- Embedding of `_check_authentication`. -/
def checkAuthentication (spec : OpenApiSpec) (path method : String)
    (op : Operation) : List SFinding :=
  let hasSec := endpointHasSecurity spec op
  if !hasSec then
    let isSensitive := (BUSINESS_FLOW_PATTERNS ++ ADMIN_PATTERNS).any
      (fun pat => containsStr (lowerStr path) pat)
    [{ type := "AUTH_MISSING",
       severity := if isSensitive then "CRITICAL" else "HIGH",
       endpoint := path, method := method,
       owasp_category := "API2:2023 - Broken Authentication",
       cwe_id := some "CWE-306" }]
  else
    (endpointSecuritySchemes spec op).flatMap (fun nsch =>
      (if lowerStr nsch.2.type = "http" ∧ lowerStr nsch.2.scheme = "basic" then
        [{ type := "WEAK_AUTH", severity := "MEDIUM",
           endpoint := path, method := method,
           owasp_category := "API2:2023 - Broken Authentication",
           cwe_id := some "CWE-287" }]
      else [])
      ++ (if lowerStr nsch.2.type = "apikey" ∧ nsch.2.inLoc = "query" then
        [{ type := "APIKEY_IN_QUERY", severity := "MEDIUM",
           endpoint := path, method := method,
           owasp_category := "API2:2023 - Broken Authentication",
           cwe_id := some "CWE-598" }]
      else []))

/-- Embedding of `_check_property_authorization`. -/
def checkPropertyAuthorization (path method : String) (op : Operation) :
    List SFinding :=
  (if (method = "POST" ∨ method = "PUT" ∨ method = "PATCH")
      ∧ hasSensitivePropsInSchema op.requestBody = true then
    [{ type := "MASS_ASSIGNMENT", severity := "HIGH",
       endpoint := path, method := method,
       owasp_category := "API3:2023 - Broken Object Property Level Authorization",
       cwe_id := some "CWE-915" }]
  else [])
  ++ (if op.responses.any (fun cr => strStarts cr.1 "2" && responseMayExpose cr.2) then
    [{ type := "EXCESSIVE_DATA_EXPOSURE", severity := "MEDIUM",
       endpoint := path, method := method,
       owasp_category := "API3:2023 - Broken Object Property Level Authorization",
       cwe_id := some "CWE-213" }]
  else [])

/-- Embedding of `_check_resource_consumption`. -/
def checkResourceConsumption (path method : String) (op : Operation) :
    List SFinding :=
  (if method = "GET" then
    let hasPagination := op.parameters.any (fun p =>
      ["limit", "page", "pagesize", "page_size", "per_page", "offset"].contains
        (lowerStr p.name))
    let mightReturnList := !endsWithBraceParam path
      || containsStr (lowerStr path) "list" || endsWith path "s"
    if mightReturnList && !hasPagination then
      [{ type := "NO_PAGINATION", severity := "MEDIUM",
         endpoint := path, method := method,
         owasp_category := "API4:2023 - Unrestricted Resource Consumption",
         cwe_id := some "CWE-770" }]
    else []
  else [])
  ++ (if method = "POST" ∨ method = "PUT" then
    if op.requestBody.content.any (fun ct =>
        containsStr ct.1 "multipart" || containsStr ct.1 "octet-stream") then
      [{ type := "FILE_UPLOAD_NO_LIMIT", severity := "MEDIUM",
         endpoint := path, method := method,
         owasp_category := "API4:2023 - Unrestricted Resource Consumption",
         cwe_id := some "CWE-400" }]
    else []
  else [])
  ++ (if method = "POST" ∨ method = "PUT" ∨ method = "DELETE" ∨ method = "PATCH" then
    [{ type := "RATE_LIMIT_RECOMMENDED", severity := "LOW",
       endpoint := path, method := method,
       owasp_category := "API4:2023 - Unrestricted Resource Consumption",
       cwe_id := some "CWE-770" }]
  else [])

/-- Embedding of `_check_function_authorization`. -/
def checkFunctionAuthorization (spec : OpenApiSpec) (path method : String)
    (op : Operation) : List SFinding :=
  if ADMIN_PATTERNS.any (fun pat => containsStr (lowerStr path) pat) then
    if !endpointHasSecurity spec op then
      [{ type := "ADMIN_NO_AUTH", severity := "CRITICAL",
         endpoint := path, method := method,
         owasp_category := "API5:2023 - Broken Function Level Authorization",
         cwe_id := some "CWE-285" }]
    else
      [{ type := "ADMIN_ENDPOINT", severity := "INFO",
         endpoint := path, method := method,
         owasp_category := "API5:2023 - Broken Function Level Authorization",
         cwe_id := some "CWE-285" }]
  else []

/-- Embedding of `_check_sensitive_flows`. -/
def checkSensitiveFlows (spec : OpenApiSpec) (path method : String)
    (op : Operation) : List SFinding :=
  if BUSINESS_FLOW_PATTERNS.any (fun pat => containsStr (lowerStr path) pat) then
    let hasSec := endpointHasSecurity spec op
    [{ type := "SENSITIVE_FLOW",
       severity := if !hasSec then "HIGH" else "MEDIUM",
       endpoint := path, method := method,
       owasp_category := "API6:2023 - Unrestricted Access to Sensitive Business Flows",
       cwe_id := some "CWE-799" }]
  else []

/-- Embedding of `_check_ssrf` (one finding per suspicious parameter — the
`break` only leaves the inner pattern loop — plus at most one body
finding). -/
def checkSsrf (path method : String) (op : Operation) : List SFinding :=
  (op.parameters.filterMap (fun param =>
    if SSRF_PATTERNS.any (fun pat => containsStr (lowerStr param.name) pat) then
      some { type := "SSRF_RISK", severity := "HIGH",
             endpoint := path, method := method,
             owasp_category := "API7:2023 - Server Side Request Forgery",
             cwe_id := some "CWE-918",
             evidence := some ("Suspicious parameter: " ++ param.name) }
    else none))
  ++ (if hasUrlPropsInSchema op.requestBody then
    [{ type := "SSRF_BODY_RISK", severity := "MEDIUM",
       endpoint := path, method := method,
       owasp_category := "API7:2023 - Server Side Request Forgery",
       cwe_id := some "CWE-918" }]
  else [])

/-- Embedding of `_check_security_misconfiguration` (the severity depends on
the first matching debug pattern in list order). -/
def checkSecurityMisconfiguration (path method : String) (op : Operation) :
    List SFinding :=
  (match DEBUG_PATTERNS.find? (fun pat => containsStr (lowerStr path) pat) with
  | some pat =>
    [{ type := "DEBUG_ENDPOINT",
       severity := if pat = "swagger" ∨ pat = "docs" ∨ pat = "graphql"
         then "LOW" else "MEDIUM",
       endpoint := path, method := method,
       owasp_category := "API8:2023 - Security Misconfiguration",
       cwe_id := some "CWE-489" }]
  | none => [])
  ++ (if op.responses.any (fun cr => strStarts cr.1 "5"
        && ["stack", "trace", "debug", "internal"].any (fun w =>
             containsStr (lowerStr cr.2.description) w)) then
    [{ type := "VERBOSE_ERROR", severity := "LOW",
       endpoint := path, method := method,
       owasp_category := "API8:2023 - Security Misconfiguration",
       cwe_id := some "CWE-209" }]
  else [])

/-- Embedding of `_check_unsafe_api_consumption`. -/
def checkUnsafeApiConsumption (path method : String) (op : Operation) :
    List SFinding :=
  if EXTERNAL_INDICATORS.any (fun ind =>
      containsStr (lowerStr op.description) ind
        || containsStr (lowerStr op.summary) ind) then
    [{ type := "EXTERNAL_API_CONSUMPTION", severity := "LOW",
       endpoint := path, method := method,
       owasp_category := "API10:2023 - Unsafe Consumption of APIs",
       cwe_id := some "CWE-20" }]
  else []

/-- Embedding of `_check_global_security` (one HTTP_SERVER finding per
non-local plain-HTTP server URL, no break). -/
def checkGlobalSecurity (spec : OpenApiSpec) : List SFinding :=
  (if spec.security.isEmpty && (getSecurityDefinitions spec).isEmpty then
    [{ type := "NO_GLOBAL_SECURITY", severity := "HIGH",
       endpoint := "/api", method := "*",
       owasp_category := "API2:2023 - Broken Authentication",
       cwe_id := some "CWE-306" }]
  else [])
  ++ spec.servers.filterMap (fun url =>
    if strStarts url "http://" && !containsStr url "localhost"
        && !containsStr url "127.0.0.1" then
      some { type := "HTTP_SERVER", severity := "HIGH",
             endpoint := "/api", method := "*",
             owasp_category := "API8:2023 - Security Misconfiguration",
             cwe_id := some "CWE-319" }
    else none)

/-- Embedding of `_check_inventory_management` (the deprecated-endpoint loop
walks every method key of every path item). -/
def checkInventoryManagement (spec : OpenApiSpec) : List SFinding :=
  (spec.paths.flatMap (fun pi =>
    pi.2.filterMap (fun mo =>
      if mo.2.deprecated then
        some { type := "DEPRECATED_ENDPOINT", severity := "LOW",
               endpoint := pi.1, method := upperStr mo.1,
               owasp_category := "API9:2023 - Improper Inventory Management",
               cwe_id := some "CWE-1059" }
      else none)))
  ++ (if 1 < (versionsFound spec.paths).length then
    [{ type := "MULTIPLE_API_VERSIONS", severity := "INFO",
       endpoint := "/api", method := "*",
       owasp_category := "API9:2023 - Improper Inventory Management",
       cwe_id := some "CWE-1059" }]
  else [])

def HTTP_METHODS : List String :=
  ["get", "post", "put", "patch", "delete", "head", "options"]

/-- Embedding of `_scan_endpoint`: the nine per-endpoint checks in source
order. -/
def scanEndpoint (spec : OpenApiSpec) (path method : String) (op : Operation) :
    List SFinding :=
  checkBola spec path method op
  ++ checkAuthentication spec path method op
  ++ checkPropertyAuthorization path method op
  ++ checkResourceConsumption path method op
  ++ checkFunctionAuthorization spec path method op
  ++ checkSensitiveFlows spec path method op
  ++ checkSsrf path method op
  ++ checkSecurityMisconfiguration path method op
  ++ checkUnsafeApiConsumption path method op

/-- Embedding of `OWASPScanner.scan`: every path × recognised HTTP method,
then the two spec-level checks. -/
def owaspScan (spec : OpenApiSpec) : List SFinding :=
  (spec.paths.flatMap (fun pi =>
    pi.2.flatMap (fun mo =>
      if HTTP_METHODS.contains (lowerStr mo.1) then
        scanEndpoint spec pi.1 (upperStr mo.1) mo.2
      else [])))
  ++ checkGlobalSecurity spec
  ++ checkInventoryManagement spec

/-! ## Compliance mapper (`compliance/mapper.py`)

The two lookup tables are embedded verbatim; a per-framework control list is
an association list in dict insertion order.  `list(set(...))` of the source
leaves the final per-framework order unspecified, so deduplication is
modelled keeping the first occurrence and order-sensitive claims are stated
up to permutation. -/

def FRAMEWORKS : List String :=
  ["soc2", "pci_dss", "hipaa", "gdpr", "iso_27001", "nist_csf", "cis_controls"]

def CWE_MAPPINGS : List (String × List (String × List String)) :=
  [("CWE-89",
    [("soc2", ["CC6.1", "CC6.6", "CC7.1", "CC7.2"]),
     ("pci_dss", ["6.2.4", "6.3.1", "6.5.1"]),
     ("hipaa", ["164.312(a)(1)", "164.312(a)(2)(iv)"]),
     ("gdpr", ["Art. 32(1)(b)", "Art. 32(1)(d)"]),
     ("iso_27001", ["A.14.2.5", "A.14.1.2"]),
     ("nist_csf", ["PR.DS-2", "PR.DS-5"]),
     ("cis_controls", ["16.1", "16.11"])]),
   ("CWE-79",
    [("soc2", ["CC6.1", "CC6.6", "CC7.1"]),
     ("pci_dss", ["6.2.4", "6.5.7"]),
     ("hipaa", ["164.312(a)(1)"]),
     ("gdpr", ["Art. 32(1)(b)"]),
     ("iso_27001", ["A.14.2.5"]),
     ("nist_csf", ["PR.DS-5"]),
     ("cis_controls", ["16.1"])]),
   ("CWE-287",
    [("soc2", ["CC6.1", "CC6.2", "CC6.3"]),
     ("pci_dss", ["8.2.1", "8.3.1", "8.3.2", "8.6.1"]),
     ("hipaa", ["164.312(d)", "164.312(a)(2)(i)"]),
     ("gdpr", ["Art. 32(1)(b)", "Art. 32(1)(d)"]),
     ("iso_27001", ["A.9.2.1", "A.9.4.2", "A.9.4.3"]),
     ("nist_csf", ["PR.AC-1", "PR.AC-7"]),
     ("cis_controls", ["5.1", "5.2", "6.3"])]),
   ("CWE-200",
    [("soc2", ["CC6.1", "CC6.7", "P4.1"]),
     ("pci_dss", ["3.4.1", "4.2.1", "8.3.1"]),
     ("hipaa", ["164.312(a)(2)(iv)", "164.312(e)(2)(ii)"]),
     ("gdpr", ["Art. 32(1)(a)", "Art. 5(1)(f)"]),
     ("iso_27001", ["A.8.2.3", "A.13.2.3"]),
     ("nist_csf", ["PR.DS-1", "PR.DS-2"]),
     ("cis_controls", ["3.10", "3.11"])]),
   ("CWE-639",
    [("soc2", ["CC6.1", "CC6.3", "CC6.6"]),
     ("pci_dss", ["7.1.1", "7.2.1", "7.3.1"]),
     ("hipaa", ["164.312(a)(1)", "164.312(a)(2)(i)"]),
     ("gdpr", ["Art. 32(1)(b)", "Art. 25(2)"]),
     ("iso_27001", ["A.9.1.1", "A.9.4.1"]),
     ("nist_csf", ["PR.AC-4", "PR.PT-3"]),
     ("cis_controls", ["6.1", "6.2"])]),
   ("CWE-918",
    [("soc2", ["CC6.1", "CC6.6", "CC7.2"]),
     ("pci_dss", ["6.2.4", "6.5.8"]),
     ("hipaa", ["164.312(a)(1)"]),
     ("gdpr", ["Art. 32(1)(b)"]),
     ("iso_27001", ["A.13.1.1", "A.14.1.2"]),
     ("nist_csf", ["PR.DS-5", "DE.CM-1"]),
     ("cis_controls", ["12.1", "13.1"])]),
   ("CWE-16",
    [("soc2", ["CC6.1", "CC6.6", "CC7.1"]),
     ("pci_dss", ["2.2.1", "6.4.1", "6.4.2"]),
     ("hipaa", ["164.312(a)(2)(iv)"]),
     ("gdpr", ["Art. 32(1)(d)"]),
     ("iso_27001", ["A.12.6.1", "A.14.2.8"]),
     ("nist_csf", ["PR.IP-1", "PR.IP-2"]),
     ("cis_controls", ["4.1", "4.2"])]),
   ("CWE-770",
    [("soc2", ["CC6.1", "CC6.6", "A1.2"]),
     ("pci_dss", ["6.5.10", "11.4.1"]),
     ("hipaa", ["164.312(a)(2)(i)"]),
     ("gdpr", ["Art. 32(1)(b)"]),
     ("iso_27001", ["A.12.1.3", "A.13.1.2"]),
     ("nist_csf", ["PR.DS-4", "DE.CM-1"]),
     ("cis_controls", ["9.2", "13.8"])]),
   ("CWE-327",
    [("soc2", ["CC6.1", "CC6.7"]),
     ("pci_dss", ["3.6.1", "4.2.1", "4.2.2"]),
     ("hipaa", ["164.312(a)(2)(iv)", "164.312(e)(2)(ii)"]),
     ("gdpr", ["Art. 32(1)(a)"]),
     ("iso_27001", ["A.10.1.1", "A.10.1.2"]),
     ("nist_csf", ["PR.DS-1", "PR.DS-2"]),
     ("cis_controls", ["3.10", "3.11"])]),
   ("CWE-22",
    [("soc2", ["CC6.1", "CC6.6"]),
     ("pci_dss", ["6.2.4", "6.5.8"]),
     ("hipaa", ["164.312(a)(1)"]),
     ("gdpr", ["Art. 32(1)(b)"]),
     ("iso_27001", ["A.14.2.5"]),
     ("nist_csf", ["PR.DS-5"]),
     ("cis_controls", ["16.1"])]),
   ("CWE-778",
    [("soc2", ["CC7.2", "CC7.3", "CC7.4"]),
     ("pci_dss", ["10.2.1", "10.3.1", "10.4.1"]),
     ("hipaa", ["164.312(b)"]),
     ("gdpr", ["Art. 30", "Art. 33"]),
     ("iso_27001", ["A.12.4.1", "A.12.4.2"]),
     ("nist_csf", ["DE.AE-3", "DE.CM-1"]),
     ("cis_controls", ["8.2", "8.5"])])]

def OWASP_MAPPINGS : List (String × List (String × List String)) :=
  [("API1:2023",
    [("soc2", ["CC6.1", "CC6.3"]), ("pci_dss", ["7.1.1", "7.2.1"]),
     ("hipaa", ["164.312(a)(1)"]), ("gdpr", ["Art. 32(1)(b)"])]),
   ("API2:2023",
    [("soc2", ["CC6.1", "CC6.2", "CC6.3"]), ("pci_dss", ["8.2.1", "8.3.1"]),
     ("hipaa", ["164.312(d)"]), ("gdpr", ["Art. 32(1)(b)"])]),
   ("API3:2023",
    [("soc2", ["CC6.1", "CC6.3"]), ("pci_dss", ["7.1.1"]),
     ("hipaa", ["164.312(a)(1)"]), ("gdpr", ["Art. 25(2)"])]),
   ("API4:2023",
    [("soc2", ["CC6.1", "A1.2"]), ("pci_dss", ["6.5.10"]),
     ("hipaa", ["164.312(a)(2)(i)"]), ("gdpr", ["Art. 32(1)(b)"])]),
   ("API5:2023",
    [("soc2", ["CC6.1", "CC6.3"]), ("pci_dss", ["7.1.1", "7.2.1"]),
     ("hipaa", ["164.312(a)(1)"]), ("gdpr", ["Art. 32(1)(b)"])]),
   ("API6:2023",
    [("soc2", ["CC6.1", "CC6.6"]), ("pci_dss", ["6.5.10"]),
     ("hipaa", ["164.312(a)(1)"]), ("gdpr", ["Art. 32(1)(b)"])]),
   ("API7:2023",
    [("soc2", ["CC6.1", "CC6.6"]), ("pci_dss", ["6.5.8"]),
     ("hipaa", ["164.312(a)(1)"]), ("gdpr", ["Art. 32(1)(b)"])]),
   ("API8:2023",
    [("soc2", ["CC6.1", "CC6.6", "CC7.1"]), ("pci_dss", ["2.2.1", "6.4.1"]),
     ("hipaa", ["164.312(a)(2)(iv)"]), ("gdpr", ["Art. 32(1)(d)"])]),
   ("API9:2023",
    [("soc2", ["CC6.1", "CC7.1"]), ("pci_dss", ["2.4", "6.3.2"]),
     ("hipaa", ["164.312(a)(1)"]), ("gdpr", ["Art. 30"])]),
   ("API10:2023",
    [("soc2", ["CC6.1", "CC9.2"]), ("pci_dss", ["6.4.3", "12.8.1"]),
     ("hipaa", ["164.314(a)(2)(i)"]), ("gdpr", ["Art. 28"])])]

/-- Remove every occurrence of `pat` from `s` (Python `s.replace(pat, "")`,
on characters).  The fuel argument only bounds the recursion (each step
strictly shortens the list, so `s.length` is always enough); it keeps the
definition structurally recursive and hence kernel-reducible. -/
def removeAllSubFuel (pat : List Char) : Nat → List Char → List Char
  | _, [] => []
  | 0, s => s
  | fuel + 1, c :: t =>
    if pat.isEmpty then c :: t
    else if litAt pat (c :: t) then removeAllSubFuel pat fuel (t.drop (pat.length - 1))
    else c :: removeAllSubFuel pat fuel t

def removeAllSub (pat s : List Char) : List Char := removeAllSubFuel pat s.length s

/-- The CWE key normalisation of `map_finding`:
`"CWE-" + cwe_id.replace("CWE-", "")`. -/
def cweKeyOf (cwe : String) : String :=
  "CWE-" ++ String.mk (removeAllSub "CWE-".data cwe.data)

/-- First component of `owasp_category.split(" - ")` (the whole string when
the separator does not occur), computed on characters. -/
def owaspIdChars (sep : List Char) : List Char → List Char
  | [] => []
  | c :: t => if litAt sep (c :: t) then [] else c :: owaspIdChars sep t

def owaspIdOf (cat : String) : String := String.mk (owaspIdChars " - ".data cat.data)

/-- Append `cs` to the entry of `fw`, creating it at the end when absent
(Python dict `mappings[framework].extend(controls)` after a default). -/
def extendAt : List (String × List String) → String → List String →
    List (String × List String)
  | [], fw, cs => [(fw, cs)]
  | (k, v) :: rest, fw, cs =>
    if k = fw then (k, v ++ cs) :: rest
    else (k, v) :: extendAt rest fw cs

/-- Fold one lookup table entry into the mappings, honouring the enabled
frameworks filter. -/
def addMappings (enabled : List String) (m : List (String × List String))
    (fwcs : List (String × List String)) : List (String × List String) :=
  fwcs.foldl (fun acc fc =>
    if enabled.contains fc.1 then extendAt acc fc.1 fc.2 else acc) m

/-- Embedding of `ComplianceMapper.map_finding` over the fields it reads
(`finding.cwe_id`, `finding.owasp_category`; Python truthiness makes the
empty string behave like an absent one). -/
def mapFinding (enabled : List String) (cwe_id owasp_category : Option String) :
    List (String × List String) :=
  let m1 : List (String × List String) :=
    match cwe_id with
    | some cwe =>
      if cwe.isEmpty then []
      else
        match CWE_MAPPINGS.lookup (cweKeyOf cwe) with
        | some fwcs => addMappings enabled [] fwcs
        | none => []
    | none => []
  let m2 : List (String × List String) :=
    match owasp_category with
    | some cat =>
      if cat.isEmpty then m1
      else
        match OWASP_MAPPINGS.lookup (owaspIdOf cat) with
        | some fwcs => addMappings enabled m1 fwcs
        | none => m1
    | none => m1
  m2.map (fun fc => (fc.1, dedupFirst fc.2))

/-! ## Remediation engine (`remediation/engine.py`)

Only the template fields the orchestrator and the claims consume are
embedded (`description`, `priority`, `effort`); steps, references and
per-language code examples are free text never inspected by a verified
property. -/

structure RemTemplate where
  description : String
  priority : String
  effort : String
  deriving Repr, DecidableEq

def REMEDIATIONS : List (String × RemTemplate) :=
  [("sql_injection",
    { description := "Use parameterized queries or prepared statements to prevent SQL injection. Never concatenate user input directly into SQL queries.",
      priority := "immediate", effort := "medium" }),
   ("xss",
    { description := "Encode all user-supplied data before rendering in HTML context. Use Content Security Policy (CSP) headers and modern frameworks that auto-escape output.",
      priority := "immediate", effort := "medium" }),
   ("bola",
    { description := "Implement proper authorization checks before accessing any object. Verify the authenticated user has permission to access the requested resource.",
      priority := "immediate", effort := "medium" }),
   ("broken_auth",
    { description := "Implement secure authentication mechanisms including strong password policies, MFA, secure session management, and account lockout.",
      priority := "immediate", effort := "high" }),
   ("rate_limiting",
    { description := "Implement rate limiting to prevent abuse, DoS attacks, and brute force attempts. Use sliding window or token bucket algorithms.",
      priority := "short_term", effort := "low" }),
   ("ssrf",
    { description := "Validate and sanitize all user-supplied URLs. Use allowlists for permitted domains and block internal network ranges.",
      priority := "immediate", effort := "medium" }),
   ("security_headers",
    { description := "Implement security headers to protect against common attacks like XSS, clickjacking, and MIME sniffing.",
      priority := "short_term", effort := "low" })]

def CWE_TO_TYPE : List (String × String) :=
  [("CWE-89", "sql_injection"), ("CWE-79", "xss"), ("CWE-639", "bola"),
   ("CWE-287", "broken_auth"), ("CWE-306", "broken_auth"),
   ("CWE-770", "rate_limiting"), ("CWE-918", "ssrf"),
   ("CWE-16", "security_headers"), ("CWE-693", "security_headers")]

def OWASP_TO_TYPE : List (String × String) :=
  [("API1:2023", "bola"), ("API2:2023", "broken_auth"), ("API3:2023", "bola"),
   ("API4:2023", "rate_limiting"), ("API7:2023", "ssrf"),
   ("API8:2023", "security_headers")]

/-- The keyword table of `_get_remediation_type`, in match order. -/
def REMEDIATION_KEYWORDS : List (List String × String) :=
  [(["sql", "injection", "sqli"], "sql_injection"),
   (["xss", "cross-site scripting", "script"], "xss"),
   (["bola", "idor", "authorization"], "bola"),
   (["auth", "login", "password"], "broken_auth"),
   (["rate", "limit", "dos", "throttl"], "rate_limiting"),
   (["ssrf", "server-side request"], "ssrf")]

/-- Embedding of `_get_remediation_type` over the fields it reads: the CWE
table first, then the OWASP table, then case-insensitive keyword matching on
the finding type. -/
def getRemediationType (cwe_id owasp_category : Option String) (ftype : String) :
    Option String :=
  let byCwe : Option String :=
    match cwe_id with
    | some cwe =>
      if cwe.isEmpty then none else CWE_TO_TYPE.lookup (cweKeyOf cwe)
    | none => none
  match byCwe with
  | some t => some t
  | none =>
    let byOwasp : Option String :=
      match owasp_category with
      | some cat =>
        if cat.isEmpty then none else OWASP_TO_TYPE.lookup (owaspIdOf cat)
      | none => none
    match byOwasp with
    | some t => some t
    | none =>
      (REMEDIATION_KEYWORDS.find? (fun kw =>
        kw.1.any (fun key => containsStr (lowerStr ftype) key))).map Prod.snd

/-- Embedding of `get_remediation` restricted to the description, priority
and effort of the returned `Remediation` (the generic fallback of the
source). -/
def getRemediation (cwe_id owasp_category : Option String) (ftype : String) :
    RemTemplate :=
  match getRemediationType cwe_id owasp_category ftype with
  | some t =>
    match REMEDIATIONS.lookup t with
    | some template => template
    | none =>
      { description := "Review and fix the " ++ ftype
          ++ " vulnerability. Implement proper input validation, output encoding, and access controls.",
        priority := "short_term", effort := "medium" }
  | none =>
    { description := "Review and fix the " ++ ftype
        ++ " vulnerability. Implement proper input validation, output encoding, and access controls.",
      priority := "short_term", effort := "medium" }

/-! ## Claim theorems C6 and C9 -/

/-- The BOLA-gate document of the spec: `GET /users/\x7buserId\x7d` and no
`security` anywhere. -/
def bolaGateSpec : OpenApiSpec :=
  { paths := [("/users/\x7buserId\x7d", [("get", {})])] }

/-- The BOLA finding the static analyzer emits on the BOLA-gate document. -/
def bolaGateFinding : SFinding :=
  { type := "BOLA", severity := "HIGH", endpoint := "/users/\x7buserId\x7d",
    method := "GET",
    owasp_category := "API1:2023 - Broken Object Level Authorization",
    cwe_id := some "CWE-639",
    evidence := some "Path parameter pattern detected: /users/\x7buserId\x7d" }

/-- C6: on `GET /users/\x7buserId\x7d` with no security the static analyzer
emits exactly one BOLA finding, HIGH, API1:2023, CWE-639; its compliance
mapping gives soc2 exactly the set with CC6.1, CC6.3 and CC6.6 (union of the
CWE-639 and API1:2023 tables) and a pci_dss set containing 7.1.1; and
remediation dispatch selects the bola template, whose priority is
immediate. -/
theorem bola_gate_end_to_end :
    (owaspScan bolaGateSpec).filter (fun f => f.type == "BOLA") = [bolaGateFinding]
    ∧ bolaGateFinding.severity = "HIGH"
    ∧ bolaGateFinding.owasp_category = "API1:2023 - Broken Object Level Authorization"
    ∧ bolaGateFinding.cwe_id = some "CWE-639"
    ∧ (∃ soc2ctrl, (mapFinding FRAMEWORKS bolaGateFinding.cwe_id
          (some bolaGateFinding.owasp_category)).lookup "soc2" = some soc2ctrl
        ∧ soc2ctrl.Perm ["CC6.1", "CC6.3", "CC6.6"])
    ∧ (∃ pcictrl, (mapFinding FRAMEWORKS bolaGateFinding.cwe_id
          (some bolaGateFinding.owasp_category)).lookup "pci_dss" = some pcictrl
        ∧ "7.1.1" ∈ pcictrl)
    ∧ getRemediationType bolaGateFinding.cwe_id (some bolaGateFinding.owasp_category)
        bolaGateFinding.type = some "bola"
    ∧ (getRemediation bolaGateFinding.cwe_id (some bolaGateFinding.owasp_category)
        bolaGateFinding.type).priority = "immediate" := by
  refine ⟨by decide, rfl, rfl, rfl,
    ⟨["CC6.1", "CC6.3", "CC6.6"], by decide, List.Perm.refl _⟩,
    ⟨["7.1.1", "7.2.1", "7.3.1"], by decide, by decide⟩,
    by decide, by decide⟩

/-- An OpenAPI document declaring an apiKey-in-query scheme named "token"
together with one GET endpoint that does not reference any scheme. -/
def apiKeyQueryDeclaredSpec : OpenApiSpec :=
  { componentsSecuritySchemes? :=
      some [("token", { type := "apiKey", inLoc := "query" })],
    paths := [("/a", [("get", {})])] }

/-- Counterexample to C9 as stated: this document declares a
`type: apiKey, in: query` scheme named "token", yet the analyzer emits no
APIKEY_IN_QUERY finding at all (the apiKey check only runs for operations
whose effective security references the scheme). -/
theorem apikey_in_query_counterexample :
    (getSecurityDefinitions apiKeyQueryDeclaredSpec).lookup "token"
      = some { type := "apiKey", scheme := "", inLoc := "query" }
    ∧ (owaspScan apiKeyQueryDeclaredSpec).countP
        (fun f => f.type == "APIKEY_IN_QUERY") = 0
    ∧ (owaspScan apiKeyQueryDeclaredSpec).map (fun f => f.type)
        = ["AUTH_MISSING", "NO_PAGINATION"] := by
  refine ⟨by decide, by decide, by decide⟩

theorem mem_dedupFirst_fold (l acc : List String) (x : String)
    (hx : x ∈ l.foldl (fun acc s => if acc.contains s then acc else acc ++ [s]) acc) :
    x ∈ acc ∨ x ∈ l := by
  induction l generalizing acc with
  | nil => exact Or.inl hx
  | cons s t ih =>
    simp only [List.foldl] at hx
    rcases ih _ hx with h | h
    · by_cases hc : acc.contains s
      · rw [if_pos hc] at h
        exact Or.inl h
      · rw [if_neg hc] at h
        rcases List.mem_append.mp h with h1 | h1
        · exact Or.inl h1
        · have hxs : x = s := by simpa using h1
          subst hxs
          exact Or.inr (List.mem_cons_self x t)
    · exact Or.inr (List.mem_cons.mpr (Or.inr h))

theorem mem_of_mem_dedupFirst (l : List String) (x : String)
    (hx : x ∈ dedupFirst l) : x ∈ l := by
  rcases mem_dedupFirst_fold l [] x hx with h | h
  · cases h
  · exact h

/-- The APIKEY_IN_QUERY finding emitted for a given endpoint and method. -/
def apiKeyQueryFinding (path method : String) : SFinding :=
  { type := "APIKEY_IN_QUERY", severity := "MEDIUM", endpoint := path,
    method := method,
    owasp_category := "API2:2023 - Broken Authentication",
    cwe_id := some "CWE-598" }

/-- C9 (amended): whenever some operation's effective security references a
declared scheme with `type: apiKey` and `in: query`, the analyzer emits an
APIKEY_IN_QUERY finding with severity MEDIUM and CWE-598 for that
endpoint. -/
theorem apikey_in_query_emitted (spec : OpenApiSpec) (path : String)
    (item : List (String × Operation)) (m : String) (op : Operation)
    (name : String) (sch : SecurityScheme)
    (hpi : (path, item) ∈ spec.paths) (hmo : (m, op) ∈ item)
    (hm : HTTP_METHODS.contains (lowerStr m) = true)
    (hname : (name, sch) ∈ endpointSecuritySchemes spec op)
    (htype : lowerStr sch.type = "apikey") (hin : sch.inLoc = "query") :
    apiKeyQueryFinding path (upperStr m) ∈ owaspScan spec := by
  have hsec : endpointHasSecurity spec op = true := by
    have hmem := hname
    unfold endpointSecuritySchemes at hmem
    rcases List.mem_filterMap.mp hmem with ⟨n, hn, hlook⟩
    have hnin := mem_of_mem_dedupFirst _ _ hn
    rcases List.mem_flatMap.mp hnin with ⟨req, hreq, hnreq⟩
    unfold endpointHasSecurity
    cases hs : op.security with
    | some reqs =>
      rw [hs] at hreq
      rcases reqs with _ | ⟨r, rs⟩
      · cases hreq
      · simp
    | none =>
      rw [hs] at hreq
      cases hsp : spec.security with
      | nil => rw [hsp] at hreq; cases hreq
      | cons r rs => simp
  have hfind : apiKeyQueryFinding path (upperStr m)
      ∈ checkAuthentication spec path (upperStr m) op := by
    unfold checkAuthentication
    rw [hsec]
    simp only [Bool.not_true, Bool.false_eq_true, if_false]
    refine List.mem_flatMap.mpr ⟨(name, sch), hname, ?_⟩
    refine List.mem_append.mpr (Or.inr ?_)
    rw [if_pos ⟨htype, hin⟩]
    exact List.mem_cons_self _ _
  have hscan : apiKeyQueryFinding path (upperStr m)
      ∈ scanEndpoint spec path (upperStr m) op := by
    unfold scanEndpoint
    simp only [List.mem_append]
    exact Or.inl (Or.inl (Or.inl (Or.inl (Or.inl (Or.inl (Or.inl
      (Or.inr hfind)))))))
  unfold owaspScan
  refine List.mem_append.mpr (Or.inl (List.mem_append.mpr (Or.inl ?_)))
  refine List.mem_flatMap.mpr ⟨(path, item), hpi, ?_⟩
  refine List.mem_flatMap.mpr ⟨(m, op), hmo, ?_⟩
  rw [if_pos hm]
  exact hscan

/-- Document of the C9 witness: the scheme of the counterexample, now
referenced by the endpoint's own `security`. -/
def apiKeyQueryUsedSpec : OpenApiSpec :=
  { componentsSecuritySchemes? :=
      some [("token", { type := "apiKey", inLoc := "query" })],
    paths := [("/a", [("get", { security := some [["token"]] })])] }

/-- Witness for the amended C9: the referenced apiKey-in-query scheme makes
the analyzer emit the MEDIUM / CWE-598 APIKEY_IN_QUERY finding. -/
theorem apikey_in_query_emitted_witness :
    apiKeyQueryFinding "/a" "GET" ∈ owaspScan apiKeyQueryUsedSpec := by
  have h := apikey_in_query_emitted apiKeyQueryUsedSpec "/a"
    [("get", { security := some [["token"]] })] "get"
    { security := some [["token"]] } "token"
    { type := "apiKey", scheme := "", inLoc := "query" }
    (List.mem_singleton.mpr rfl) (List.mem_singleton.mpr rfl)
    (by decide) (by decide) (by decide) (by decide)
  simpa using h

/-! ## Engine adapters: the failure boundary (`engines/nuclei_engine.py`,
`engines/schemathesis_engine.py`, `engines/zap_engine.py`)

Each adapter's `scan` wraps its whole body in `try/except Exception` and
falls through to `return findings`.  The body is embedded as an
`Except`-valued function of the run outcome: the statements that can raise
produce `Except.error`, everything else `Except.ok`; the boundary converts an
error into the findings accumulated before it (always the empty list, since
all collection happens after the last raising statement). -/

/-- One line of the nuclei results file as the parsing loop sees it. -/
inductive NucleiLine where
  /-- a line that `strip()`s to nothing and is skipped -/
  | blank
  /-- a line on which `json.loads` raises and the inner `except` continues -/
  | malformed
  /-- a parsed record on which `_result_to_finding` raised internally and
  returned `None` -/
  | badRecord
  /-- a parsed record normalised to a finding -/
  | record (f : Finding)
  deriving Repr, DecidableEq

/-- Outcome of the external nuclei process. -/
inductive NucleiRun where
  /-- the binary is missing: `create_subprocess_exec` raises -/
  | launchFailure
  /-- `asyncio.wait_for` raises `TimeoutError` after 600 s -/
  | timedOut
  /-- the process finished with the given exit code, having exported the
  given results file (`none` when the file was never created) -/
  | completed (exitCode : Int) (resultsFile : Option (List NucleiLine))
  deriving Repr, DecidableEq

/-- The `try` body of `NucleiEngine.scan`.  The exit code is carried but
never inspected by the source; a completed run parses whatever the results
file holds, skipping blank, malformed and unconvertible lines. -/
def nucleiScanBody : NucleiRun → Except String (List Finding)
  | .launchFailure => .error "nuclei binary not found"
  | .timedOut => .error "Nuclei scan timed out"
  | .completed _ none => .ok []
  | .completed _ (some lines) =>
      .ok (lines.filterMap (fun line =>
        match line with
        | .blank => none
        | .malformed => none
        | .badRecord => none
        | .record f => some f))

/-- The adapter boundary of `NucleiEngine.scan`: every exception is logged
and the accumulated findings (none, when the failure preceded parsing) are
returned. -/
def nucleiScan (run : NucleiRun) : List Finding :=
  match nucleiScanBody run with
  | .ok findings => findings
  | .error _ => []

/-- Outcome of one schemathesis run. -/
inductive SchemaRun where
  /-- no OpenAPI spec: early `return findings` before the `try` -/
  | noSpec
  /-- the binary is missing: `create_subprocess_exec` raises -/
  | launchFailure
  /-- `asyncio.wait_for` raises `TimeoutError` after 900 s -/
  | timedOut
  /-- process finished; stdout and JUnit parsing yielded these findings -/
  | completed (parsed : List Finding)
  deriving Repr, DecidableEq

/-- The within-engine deduplication of `SchemathesisEngine.scan` by
`(type, endpoint, method)`, first seen kept. -/
def schemathesisDedup (fs : List Finding) : List Finding :=
  fs.foldl (fun acc f =>
    if acc.any (fun g =>
        decide ((g.type, g.endpoint, g.method) = (f.type, f.endpoint, f.method))) then
      acc
    else acc ++ [f]) []

/-- The body of `SchemathesisEngine.scan` (after the early no-spec
return). -/
def schemathesisScanBody : SchemaRun → Except String (List Finding)
  | .noSpec => .ok []
  | .launchFailure => .error "schemathesis binary not found"
  | .timedOut => .error "Schemathesis scan timed out"
  | .completed parsed => .ok (schemathesisDedup parsed)

/-- The adapter boundary of `SchemathesisEngine.scan`. -/
def schemathesisScan (run : SchemaRun) : List Finding :=
  match schemathesisScanBody run with
  | .ok findings => findings
  | .error _ => []

/-- Outcome of one ZAP run. -/
inductive ZapRun where
  /-- `start_zap()` returned False: `RuntimeError("Failed to start ZAP")` -/
  | startFailure
  /-- some proxy REST call of the session/spider/scan pipeline raised -/
  | requestFailure (phase : String)
  /-- alert collection finished with these normalised findings (an expired
  active scan stops early and still reaches this arm with partial alerts) -/
  | completed (alerts : List Finding)
  deriving Repr, DecidableEq

/-- The `try` body of `ZAPEngine.scan`. -/
def zapScanBody : ZapRun → Except String (List Finding)
  | .startFailure => .error "Failed to start ZAP"
  | .requestFailure phase => .error phase
  | .completed alerts => .ok alerts

/-- The adapter boundary of `ZAPEngine.scan`. -/
def zapScan (run : ZapRun) : List Finding :=
  match zapScanBody run with
  | .ok findings => findings
  | .error _ => []

/-! ## Scan orchestrator (`engines/orchestrator.py`, `ScanOrchestrator.scan`)

Inside the orchestrator's `try`, the only statement that can raise is
`authenticate` (the three adapters catch their own errors, `_update_status`
wraps callback errors, and the enrichment helpers are pure), so the `except`
arm is reached exactly on an authentication failure.  Wall-clock timestamps
and durations are not modelled. -/

/-- The fields of `ScanTarget` the model reads. -/
structure ScanTarget where
  url : String := ""
  openapi_spec_url : Option String := none
  openapi_spec_content : Option String := none
  max_depth : Nat := 10
  deriving Repr, DecidableEq

/-- Python truthiness of an optional string (None and "" are falsy). -/
def truthyOpt (o : Option String) : Bool :=
  match o with
  | some s => !s.isEmpty
  | none => false

/-- `target.openapi_spec_url or target.openapi_spec_content` as a guard. -/
def specAvailable (t : ScanTarget) : Bool :=
  truthyOpt t.openapi_spec_url || truthyOpt t.openapi_spec_content

inductive ScanTypeModel where
  | quick | standard | full | continuous
  deriving Repr, DecidableEq

def scanTypeValue : ScanTypeModel → String
  | .quick => "quick"
  | .standard => "standard"
  | .full => "full"
  | .continuous => "continuous"

/-- Result of `AuthHandler.authenticate`: a context, or the exception it
(re-)raises on a failed token grant, login or configuration. -/
inductive AuthOutcome where
  | success
  | failure (msg : String)
  deriving Repr, DecidableEq

/-- An `AuthConfig` reduced to its observable effect on the orchestrator:
its `method.value` string and the outcome of authenticating with it. -/
structure AuthConfigModel where
  methodValue : String
  outcome : AuthOutcome
  deriving Repr, DecidableEq

/-- External collaborators of one `scan` call. -/
structure ScanEnv where
  auth? : Option AuthConfigModel := none
  nucleiRun : NucleiRun := .completed 0 none
  schemaRun : SchemaRun := .noSpec
  zapRun : ZapRun := .completed []
  deriving Repr, DecidableEq

/-- The summary dictionary of a scan result, restricted to what the verified
properties inspect: the failure arm stores the error message under the
"error" key; the success arm's statistics (built by `_calculate_summary`)
are not read by any claim and are collapsed to one constructor. -/
inductive SummaryModel where
  | stats
  | errorMsg (msg : String)
  deriving Repr, DecidableEq

/-- The dictionary built by `_calculate_coverage`. -/
structure Coverage where
  endpoints_discovered : Nat
  http_methods_tested : List String
  engines_used : List String
  authenticated : Bool
  depth_reached : Nat
  owasp_categories_covered : List String
  deriving Repr, DecidableEq

/-- Embedding of `_calculate_coverage`.  The `target` parameter is optional
because the source computes `"authenticated": target is not None` — a test
on the target argument, which the scan method always passes, never on the
authentication context.  The sets of the source become first-occurrence
deduplicated lists. -/
def calculateCoverage (target? : Option ScanTarget) (findings : List Finding)
    (engines_used : List String) : Coverage :=
  { endpoints_discovered := (dedupFirst (findings.map (fun f => f.endpoint))).length,
    http_methods_tested := dedupFirst (findings.map (fun f => f.method)),
    engines_used := engines_used,
    authenticated := target?.isSome,
    depth_reached := (match target? with | some t => t.max_depth | none => 0),
    owasp_categories_covered := dedupFirst (findings.filterMap
      (fun f => match f.owasp_category with
        | some c => if c.isEmpty then none else some c
        | none => none)) }

/-- The fields of `ScanResult` the verified properties inspect. -/
structure ScanResultModel where
  scan_id : String
  target_url : String
  scan_type : String
  status : String
  findings : List Finding
  summary : SummaryModel
  engines_used : List String
  auth_method : Option String
  coverage : Option Coverage
  risk_score : Nat
  deriving Repr, DecidableEq

/-- The phase pipeline of `ScanOrchestrator.scan` after authentication
succeeded (or none was configured): nuclei always, schemathesis for
standard/full/continuous when a spec is available, ZAP for full/continuous;
then deduplication and the metric calculations. -/
def orchestratorScanPhases (env : ScanEnv) (target : ScanTarget)
    (scanType : ScanTypeModel) (scanId : String) (authMethod : Option String) :
    ScanResultModel :=
  let fs1 := nucleiScan env.nucleiRun
  let engines1 := ["nuclei"]
  let phase2 := (scanType = ScanTypeModel.standard ∨ scanType = ScanTypeModel.full
      ∨ scanType = ScanTypeModel.continuous) ∧ specAvailable target = true
  let fs2 := if phase2 then fs1 ++ schemathesisScan env.schemaRun else fs1
  let engines2 := if phase2 then engines1 ++ ["schemathesis"] else engines1
  let phase3 := scanType = ScanTypeModel.full ∨ scanType = ScanTypeModel.continuous
  let fs3 := if phase3 then fs2 ++ zapScan env.zapRun else fs2
  let engines3 := if phase3 then engines2 ++ ["zap"] else engines2
  let deduped := deduplicateFindings fs3
  { scan_id := scanId, target_url := target.url,
    scan_type := scanTypeValue scanType, status := "COMPLETED",
    findings := deduped, summary := .stats,
    engines_used := engines3, auth_method := authMethod,
    coverage := some (calculateCoverage (some target) deduped engines3),
    risk_score := calculateRiskScore deduped }

/-- Embedding of `ScanOrchestrator.scan`. -/
def orchestratorScan (env : ScanEnv) (target : ScanTarget)
    (scanType : ScanTypeModel) (scanId : String) : ScanResultModel :=
  match env.auth? with
  | some ac =>
    match ac.outcome with
    | .failure msg =>
        { scan_id := scanId, target_url := target.url,
          scan_type := scanTypeValue scanType, status := "FAILED",
          findings := [], summary := .errorMsg msg,
          engines_used := [], auth_method := none,
          coverage := none, risk_score := 0 }
    | .success =>
        orchestratorScanPhases env target scanType scanId (some ac.methodValue)
  | none => orchestratorScanPhases env target scanType scanId none

/-! ## Claim theorems C7, C8, C10 -/

/-- C7: an authentication failure propagates to the orchestrator, which
returns a result with status FAILED, the failure message under the summary's
"error" key, and no findings. -/
theorem auth_failure_fails_scan (env : ScanEnv) (target : ScanTarget)
    (scanType : ScanTypeModel) (scanId : String) (ac : AuthConfigModel)
    (msg : String) (hac : env.auth? = some ac)
    (hfail : ac.outcome = .failure msg) :
    (orchestratorScan env target scanType scanId).status = "FAILED"
    ∧ (orchestratorScan env target scanType scanId).summary = .errorMsg msg
    ∧ (orchestratorScan env target scanType scanId).findings = [] := by
  rcases ac with ⟨mv, outcome⟩
  cases hfail
  unfold orchestratorScan
  rw [hac]
  exact ⟨rfl, rfl, rfl⟩

/-- Witness for C7 at a concrete failed token grant. -/
theorem auth_failure_fails_scan_witness :
    (orchestratorScan
      { auth? := some { methodValue := "oauth2_client_credentials",
                        outcome := .failure "OAuth2 token request failed: 401" } }
      { url := "http://t" } .quick "s1").status = "FAILED"
    ∧ (orchestratorScan
      { auth? := some { methodValue := "oauth2_client_credentials",
                        outcome := .failure "OAuth2 token request failed: 401" } }
      { url := "http://t" } .quick "s1").summary
        = .errorMsg "OAuth2 token request failed: 401"
    ∧ (orchestratorScan
      { auth? := some { methodValue := "oauth2_client_credentials",
                        outcome := .failure "OAuth2 token request failed: 401" } }
      { url := "http://t" } .quick "s1").findings = [] :=
  auth_failure_fails_scan
    { auth? := some { methodValue := "oauth2_client_credentials",
                      outcome := .failure "OAuth2 token request failed: 401" } }
    { url := "http://t" } .quick "s1"
    { methodValue := "oauth2_client_credentials",
      outcome := .failure "OAuth2 token request failed: 401" }
    "OAuth2 token request failed: 401" rfl rfl

/-- A finding exported by a nuclei run that later failed. -/
def partialRunFinding : Finding :=
  { id := "n1", engine := "nuclei", type := "cve-x", severity := "HIGH",
    endpoint := "/x", method := "GET" }

/-- Counterexample to C8 as stated: a nuclei run that exits non-zero with a
parse error in its output still returns the findings of the well-formed
lines — not the empty list — and an engine whose tool never even launched is
still recorded in `engines_used`. -/
theorem adapter_failure_empty_counterexample :
    nucleiScan (.completed 2 (some [.malformed, .record partialRunFinding]))
      = [partialRunFinding]
    ∧ nucleiScan (.completed 2 (some [.malformed, .record partialRunFinding])) ≠ []
    ∧ (orchestratorScan { nucleiRun := .launchFailure } { url := "http://t" }
        .quick "s2").engines_used = ["nuclei"] := by
  refine ⟨by decide, by decide, by decide⟩

/-- The engines the orchestrator runs (and records) for a scan type and
target: nuclei always, schemathesis when the type asks for it and a spec is
available, ZAP for full/continuous. -/
def plannedEngines (t : ScanTypeModel) (target : ScanTarget) : List String :=
  ["nuclei"]
  ++ (if (t = ScanTypeModel.standard ∨ t = ScanTypeModel.full
        ∨ t = ScanTypeModel.continuous) ∧ specAvailable target = true
      then ["schemathesis"] else [])
  ++ (if t = ScanTypeModel.full ∨ t = ScanTypeModel.continuous then ["zap"] else [])

/-- C8 (amended): no adapter lets an exception past its boundary — each
returns a plain list; a failure that precedes result collection (missing
binary, timeout, proxy error, absent results file) yields the empty list,
while findings parsed from well-formed output lines are returned even when
the run also failed; and `engines_used` records exactly the engines whose
phase ran (their scan calls having returned), independently of what happened
inside the tool. -/
theorem adapter_boundary_never_raises :
    (∀ (run : NucleiRun) (e : String),
        nucleiScanBody run = .error e → nucleiScan run = [])
    ∧ (∀ (run : SchemaRun) (e : String),
        schemathesisScanBody run = .error e → schemathesisScan run = [])
    ∧ (∀ (run : ZapRun) (e : String),
        zapScanBody run = .error e → zapScan run = [])
    ∧ (∀ (env : ScanEnv) (target : ScanTarget) (t : ScanTypeModel) (sid : String),
        (orchestratorScan env target t sid).engines_used =
          (match env.auth? with
            | some ac =>
              (match ac.outcome with
                | .failure _ => []
                | .success => plannedEngines t target)
            | none => plannedEngines t target)) := by
  have hph : ∀ (env : ScanEnv) (target : ScanTarget) (t : ScanTypeModel)
      (sid : String) (am : Option String),
      (orchestratorScanPhases env target t sid am).engines_used
        = plannedEngines t target := by
    intro env target t sid am
    simp only [orchestratorScanPhases, plannedEngines]
    split_ifs <;> rfl
  refine ⟨?_, ?_, ?_, ?_⟩
  · intro run e h
    unfold nucleiScan
    rw [h]
  · intro run e h
    unfold schemathesisScan
    rw [h]
  · intro run e h
    unfold zapScan
    rw [h]
  · intro env target t sid
    unfold orchestratorScan
    cases hac : env.auth? with
    | none => exact hph env target t sid none
    | some ac =>
      rcases ac with ⟨mv, outcome⟩
      cases outcome with
      | failure msg => rfl
      | success => exact hph env target t sid (some mv)

/-- Witness for the amended C8 at concrete failing runs of all three
adapters. -/
theorem adapter_boundary_never_raises_witness :
    nucleiScan .launchFailure = []
    ∧ schemathesisScan .timedOut = []
    ∧ zapScan .startFailure = []
    ∧ (orchestratorScan { nucleiRun := .timedOut } { url := "http://t" }
        .quick "s3").engines_used = plannedEngines .quick { url := "http://t" } :=
  ⟨adapter_boundary_never_raises.1 .launchFailure "nuclei binary not found" rfl,
   adapter_boundary_never_raises.2.1 .timedOut "Schemathesis scan timed out" rfl,
   adapter_boundary_never_raises.2.2.1 .startFailure "Failed to start ZAP" rfl,
   adapter_boundary_never_raises.2.2.2 { nucleiRun := .timedOut }
     { url := "http://t" } .quick "s3"⟩

/-- The environment of the C10 failing input: no auth config at all, so no
authentication context is ever established. -/
def noAuthEnv : ScanEnv := {}

/-- C10 (code bug): `_calculate_coverage` computes `authenticated` as
`target is not None` — a test on the target argument, which `scan` always
passes — so a scan that never authenticated still completes with
`coverage.authenticated = true`, contradicting the spec's "whether
authenticated". -/
theorem coverage_authenticated_always_true :
    noAuthEnv.auth? = none
    ∧ (orchestratorScan noAuthEnv { url := "http://t" } .quick "s4").status
        = "COMPLETED"
    ∧ ((orchestratorScan noAuthEnv { url := "http://t" } .quick "s4").coverage.map
        (fun c => c.authenticated)) = some true
    ∧ (orchestratorScan noAuthEnv { url := "http://t" } .quick "s4").auth_method
        = none := by
  refine ⟨rfl, by decide, by decide, by decide⟩

end VULX
